import Mathlib

/-!
Verification development for the pokemon-sleep-db browser client.

The TypeScript sources are shallowly embedded: pure helpers become Lean
functions on `List Char` / `String`, JSON values become the inductive
`JsVal`, and the stateful cache / multi-step write services become
explicit state-passing functions whose network calls are supplied as
oracle arguments.  JavaScript numbers appear here only in integral
positions, so they are modelled as `Nat` / `Int`; floating point is out
of scope.
-/

namespace JsStr

/-- JS whitespace test used by `trim` and the `\s` regex class. -/
def isWs (c : Char) : Bool := c.isWhitespace

/-- Boolean test that the first list is an initial segment of the second. -/
def charsLead : List Char → List Char → Bool
  | [], _ => true
  | _ :: _, [] => false
  | a :: as, b :: bs => a == b && charsLead as bs

/-- Boolean substring occurrence test, mirroring `String.prototype.includes`. -/
def charsHave (needle : List Char) : List Char → Bool
  | [] => needle.isEmpty
  | c :: rest => charsLead needle (c :: rest) || charsHave needle rest

/-- `hay.includes(needle)` from JS. -/
def strIncludes (hay needle : String) : Bool :=
  charsHave needle.data hay.data

/-- `hay.startsWith(pre)` from JS. -/
def strStarts (hay pre : String) : Bool :=
  charsLead pre.data hay.data

/-- `hay.endsWith(suf)` from JS. -/
def strEnds (hay suf : String) : Bool :=
  charsLead suf.data.reverse hay.data.reverse

/-- Character list with leading and trailing whitespace removed. -/
def trimChars (l : List Char) : List Char :=
  (((l.dropWhile isWs).reverse.dropWhile isWs)).reverse

/-- `s.trim()` from JS. -/
def strTrim (s : String) : String :=
  ⟨trimChars s.data⟩

/-- `s.toLowerCase()` from JS, restricted to the ASCII mapping of `Char.toLower`. -/
def strLower (s : String) : String :=
  ⟨s.data.map Char.toLower⟩

/-- `s.replace(/\s+/g, "")`: removes every whitespace character. -/
def compactStr (s : String) : String :=
  ⟨s.data.filter (fun c => !isWs c)⟩

/-- The regex test `/^\d+$/.test(s)`: non-empty and all ASCII digits. -/
def isDigitStr (s : String) : Bool :=
  !s.data.isEmpty && s.data.all Char.isDigit

/-- Base-10 value of a digit string, the exact value of `parseInt(s, 10)`. -/
def digitsToNat (l : List Char) : Nat :=
  l.foldl (fun acc c => acc * 10 + (c.toNat - '0'.toNat)) 0

/-- `s.padStart(n, "0")` from JS. -/
def padStartZeros (s : String) (n : Nat) : String :=
  ⟨List.replicate (n - s.length) '0' ++ s.data⟩

/-- `list.join(" ")` from JS. -/
def joinSpace : List String → String
  | [] => ""
  | [s] => s
  | s :: rest => s ++ " " ++ joinSpace rest

end JsStr

namespace Search

open JsStr

/-- The fields of `PokemonDexCard` consulted by the search ranking
(`src/unnamed/part_002`): `mainSkillName` is the optional
`pokemon.mainSkill?.name`, and `ingredientNamesByLevel` holds the item
names of each entry of `pokemon.ingredientsByLevel`. -/
structure PokemonDexCard where
  id : String
  dexNo : Nat
  name : String
  ptype : String
  talent : String
  mainSkillName : Option String
  ingredientNamesByLevel : List (List String)
  deriving Repr, DecidableEq

/-- `normalizeText` from DexPage: trim then lowercase. -/
def normalizeText (value : String) : String :=
  strLower (strTrim value)

/-- The numeric-query id block of `scorePokemon`: the points contributed by
the `if (isNumericQuery ...) { ... } else { ... }` chain over the id text. -/
def idTierScore (dexNo : Nat) (q : String) : Nat :=
  let idText := Nat.repr dexNo
  let idPadded := padStartZeros idText (max 3 q.length)
  if isDigitStr q then
    let numericQuery := digitsToNat q.data
    let canonicalNumeric := Nat.repr numericQuery
    if 1 < q.length && strStarts q "0" then
      if idPadded == q || idText == q then 260
      else if strEnds idText q || strEnds idPadded q then 180
      else if strIncludes idText q || strIncludes idPadded q then 95
      else 0
    else
      (if dexNo == numericQuery then 260 else 0) +
      (if idPadded == q then 220
       else if idText == canonicalNumeric then 200
       else if strStarts idPadded q || strStarts idText canonicalNumeric then 90
       else if strIncludes idText canonicalNumeric then 25
       else 0)
  else
    if idText == q then 160
    else if strStarts idText q then 100
    else if strIncludes idText q then 60
    else 0

/-- The name block of `scorePokemon`: exact / leading / substring tiers. -/
def nameTierScore (name q : String) : Nat :=
  if name == q then 150
  else if strStarts name q then 110
  else if strIncludes name q then 80
  else 0

/-- `scorePokemon` from DexPage (`src/unnamed/part_002` lines 26-86). -/
def scorePokemon (pokemon : PokemonDexCard) (query : String) : Nat :=
  let q := normalizeText query
  if q == "" then 0
  else
    let compactQuery := compactStr q
    let name := normalizeText pokemon.name
    let ptype := normalizeText pokemon.ptype
    let talent := normalizeText pokemon.talent
    let mainSkillName := normalizeText (pokemon.mainSkillName.getD "")
    let ingredientNames :=
      joinSpace ((pokemon.ingredientNamesByLevel.map (fun level => level.map normalizeText)).flatten)
    idTierScore pokemon.dexNo q
    + nameTierScore name q
    + (if strIncludes mainSkillName q then 70 else 0)
    + (if strIncludes ingredientNames q then 55 else 0)
    + (if strIncludes ptype q then 30 else 0)
    + (if strIncludes talent q then 20 else 0)
    + (if strIncludes (compactStr name) compactQuery then 25 else 0)
    + (if strIncludes (compactStr mainSkillName) compactQuery then 15 else 0)
    + (if strIncludes (compactStr ingredientNames) compactQuery then 15 else 0)

/-- Comparator order of the empty-query branch: ascending `dexNo`. -/
def dexRel (a b : PokemonDexCard) : Prop := a.dexNo ≤ b.dexNo

instance : DecidableRel dexRel := fun a b => by unfold dexRel; infer_instance

instance : IsTotal PokemonDexCard dexRel := ⟨fun a b => Nat.le_total a.dexNo b.dexNo⟩

instance : IsTrans PokemonDexCard dexRel := ⟨fun _ _ _ h h2 => Nat.le_trans h h2⟩

/-- Comparator order of the scored branch: descending score, ties broken by
ascending `dexNo`. -/
def scoredRel (a b : PokemonDexCard × Nat) : Prop :=
  b.2 < a.2 ∨ (a.2 = b.2 ∧ a.1.dexNo ≤ b.1.dexNo)

instance : DecidableRel scoredRel := fun a b => by unfold scoredRel; infer_instance

instance : IsTotal (PokemonDexCard × Nat) scoredRel := by
  refine ⟨fun a b => ?_⟩
  rcases Nat.lt_trichotomy a.2 b.2 with h | h | h
  · exact Or.inr (Or.inl h)
  · rcases Nat.le_total a.1.dexNo b.1.dexNo with hd | hd
    · exact Or.inl (Or.inr ⟨h, hd⟩)
    · exact Or.inr (Or.inr ⟨h.symm, hd⟩)
  · exact Or.inl (Or.inl h)

instance : IsTrans (PokemonDexCard × Nat) scoredRel := by
  refine ⟨fun a b c hab hbc => ?_⟩
  rcases hab with h1 | ⟨h1, h1d⟩
  · rcases hbc with h2 | ⟨h2, _⟩
    · exact Or.inl (Nat.lt_trans h2 h1)
    · exact Or.inl (h2 ▸ h1)
  · rcases hbc with h2 | ⟨h2, h2d⟩
    · exact Or.inl (h1 ▸ h2)
    · exact Or.inr ⟨h1.trans h2, Nat.le_trans h1d h2d⟩

/-- `filteredEntries` from DexPage (`src/unnamed/part_002` lines 455-475):
empty trimmed query sorts everything by ascending `dexNo`; otherwise score,
drop zero scores, and sort by descending score with `dexNo` tie-break. -/
def filteredEntries (allEntries : List PokemonDexCard) (searchQuery : String) :
    List PokemonDexCard :=
  let query := strTrim searchQuery
  if query == "" then
    List.insertionSort dexRel allEntries
  else
    (List.insertionSort scoredRel
        ((allEntries.map (fun pokemon => (pokemon, scorePokemon pokemon query))).filter
          (fun item => decide (0 < item.2)))).map Prod.fst

end Search

namespace Search

open JsStr

lemma score_eq_zero_of_trim_empty (p : PokemonDexCard) (q : String)
    (h : strTrim q = "") : scorePokemon p q = 0 := by
  simp [scorePokemon, normalizeText, h, strLower]

lemma map_score_filter_fst (sc : PokemonDexCard → Nat) (l : List PokemonDexCard) :
    (((l.map (fun p => (p, sc p))).filter (fun x => decide (0 < x.2))).map Prod.fst)
      = l.filter (fun p => decide (0 < sc p)) := by
  induction l with
  | nil => rfl
  | cons a rest ih =>
    by_cases h : 0 < sc a
    · simp [List.filter_cons, h, ih]
    · simp [List.filter_cons, h, ih]

lemma snd_eq_score (sc : PokemonDexCard → Nat) (l : List PokemonDexCard)
    (x : PokemonDexCard × Nat)
    (hx : x ∈ (l.map (fun p => (p, sc p))).filter (fun y => decide (0 < y.2))) :
    x.2 = sc x.1 := by
  have hx2 := List.mem_of_mem_filter hx
  rcases List.mem_map.mp hx2 with ⟨p, _, hp⟩
  rw [← hp]

/-- C1: for a query whose trimmed text is non-empty, `filteredEntries` keeps
exactly the entries with positive score (score-0 entries are excluded) and
orders them by descending score with ties broken by ascending `dexNo`; for a
query trimming to the empty string, every score is 0 and the full collection
is returned sorted by ascending `dexNo`. -/
theorem filteredEntries_spec (entries : List PokemonDexCard) (q : String) :
    (strTrim q ≠ "" →
        (filteredEntries entries q).Perm
          (entries.filter (fun p => decide (0 < scorePokemon p (strTrim q))))
      ∧ List.Pairwise
          (fun a b => scorePokemon b (strTrim q) < scorePokemon a (strTrim q)
             ∨ (scorePokemon a (strTrim q) = scorePokemon b (strTrim q) ∧ a.dexNo ≤ b.dexNo))
          (filteredEntries entries q))
  ∧ (strTrim q = "" →
        (∀ p, scorePokemon p q = 0)
      ∧ (filteredEntries entries q).Perm entries
      ∧ List.Pairwise (fun a b => a.dexNo ≤ b.dexNo) (filteredEntries entries q)) := by
  constructor
  · intro hne
    have hcond : (strTrim q == "") = false := by
      simpa [String.ext_iff] using hne
    have hunfold : filteredEntries entries q =
        (List.insertionSort scoredRel
          ((entries.map (fun pokemon => (pokemon, scorePokemon pokemon (strTrim q)))).filter
            (fun item => decide (0 < item.2)))).map Prod.fst := by
      simp [filteredEntries, hcond]
    set sc : PokemonDexCard → Nat := fun p => scorePokemon p (strTrim q) with hsc
    set S := (entries.map (fun pokemon => (pokemon, sc pokemon))).filter
      (fun item => decide (0 < item.2)) with hS
    constructor
    · rw [hunfold]
      have h1 : ((List.insertionSort scoredRel S).map Prod.fst).Perm (S.map Prod.fst) :=
        (List.perm_insertionSort scoredRel S).map Prod.fst
      have h2 : S.map Prod.fst = entries.filter (fun p => decide (0 < sc p)) :=
        map_score_filter_fst sc entries
      exact h2 ▸ h1
    · rw [hunfold]
      have hsorted : List.Pairwise scoredRel (List.insertionSort scoredRel S) :=
        List.sorted_insertionSort scoredRel S
      have hmem : ∀ x ∈ List.insertionSort scoredRel S, x.2 = sc x.1 := by
        intro x hx
        exact snd_eq_score sc entries x
          ((List.perm_insertionSort scoredRel S).mem_iff.mp hx)
      rw [List.pairwise_map]
      refine hsorted.imp_of_mem ?_
      intro a b ha hb hr
      have ha2 : a.2 = scorePokemon a.1 (strTrim q) := hmem a ha
      have hb2 : b.2 = scorePokemon b.1 (strTrim q) := hmem b hb
      rcases hr with hlt | ⟨heq, hd⟩
      · exact Or.inl (by rw [← ha2, ← hb2]; exact hlt)
      · exact Or.inr ⟨by rw [← ha2, ← hb2]; exact heq, hd⟩
  · intro hemp
    have hcond : (strTrim q == "") = true := by simp [hemp]
    have hunfold : filteredEntries entries q = List.insertionSort dexRel entries := by
      simp [filteredEntries, hcond]
    refine ⟨fun p => score_eq_zero_of_trim_empty p q hemp, ?_, ?_⟩
    · rw [hunfold]; exact List.perm_insertionSort dexRel entries
    · rw [hunfold]; exact List.sorted_insertionSort dexRel entries

/-- Concrete card used to witness the search theorems. -/
def witnessCard : PokemonDexCard :=
  ⟨"25", 25, "pikachu", "electric", "helper", some "charge", [["apple"]]⟩

/-- Second concrete card (score 0 for the query of the witness). -/
def witnessCardB : PokemonDexCard :=
  ⟨"3", 3, "venusaur", "grass", "helper", none, []⟩

/-- Witness for C1: the non-empty-query branch applied to two concrete
cards and the query "pika": the score-0 card is excluded. -/
theorem filteredEntries_spec_witness :
    strTrim "pika" ≠ "" ∧
      (filteredEntries [witnessCard, witnessCardB] "pika").Perm
        ([witnessCard, witnessCardB].filter
          (fun p => decide (0 < scorePokemon p (strTrim "pika")))) :=
  ⟨by decide, ((filteredEntries_spec [witnessCard, witnessCardB] "pika").1 (by decide)).1⟩

/-- C2: with `dexNo = 25` and the leading-zero query "025" the padded id
matches exactly, so the id tier contributes its maximal 260 points and the
total score is at least 260; any numeric query that matches nothing scores
0 and therefore no more than "025" does; in general an exact zero-padded
match awards 260 while a mere suffix match awards 180, and 260 > 180. -/
theorem scorePokemon_leadingZero_spec (p : PokemonDexCard) (h : p.dexNo = 25) :
    (∀ q2 : String, isDigitStr q2 = true → scorePokemon p q2 = 0 →
        scorePokemon p q2 ≤ scorePokemon p "025")
  ∧ 260 ≤ scorePokemon p "025"
  ∧ (∀ d : Nat, ∀ q : String, isDigitStr q = true → 1 < q.length →
        strStarts q "0" = true →
        padStartZeros (Nat.repr d) (max 3 q.length) = q →
        idTierScore d q = 260)
  ∧ (∀ d : Nat, ∀ q : String, isDigitStr q = true → 1 < q.length →
        strStarts q "0" = true →
        padStartZeros (Nat.repr d) (max 3 q.length) ≠ q → Nat.repr d ≠ q →
        (strEnds (Nat.repr d) q = true ∨
          strEnds (padStartZeros (Nat.repr d) (max 3 q.length)) q = true) →
        idTierScore d q = 180)
  ∧ (180 : Nat) < 260 := by
  have hbase : 260 ≤ scorePokemon p "025" := by
    have hq : normalizeText "025" = "025" := by decide
    have hid : idTierScore p.dexNo "025" = 260 := by rw [h]; decide
    have : scorePokemon p "025" =
        idTierScore p.dexNo "025"
        + nameTierScore (normalizeText p.name) "025"
        + (if strIncludes (normalizeText (p.mainSkillName.getD "")) "025" then 70 else 0)
        + (if strIncludes (joinSpace ((p.ingredientNamesByLevel.map
              (fun level => level.map normalizeText)).flatten)) "025" then 55 else 0)
        + (if strIncludes (normalizeText p.ptype) "025" then 30 else 0)
        + (if strIncludes (normalizeText p.talent) "025" then 20 else 0)
        + (if strIncludes (compactStr (normalizeText p.name)) (compactStr "025")
            then 25 else 0)
        + (if strIncludes (compactStr (normalizeText (p.mainSkillName.getD "")))
            (compactStr "025") then 15 else 0)
        + (if strIncludes (compactStr (joinSpace ((p.ingredientNamesByLevel.map
              (fun level => level.map normalizeText)).flatten))) (compactStr "025")
            then 15 else 0) := by
      simp [scorePokemon, hq]
    rw [this, hid]
    omega
  refine ⟨fun q2 _ hz => hz ▸ Nat.zero_le _, hbase, ?_, ?_, by omega⟩
  · intro d q hdig hlen h0 hpad
    simp only [idTierScore, hdig, if_true]
    have hcond : (1 < q.length && strStarts q "0") = true := by
      simp [hlen, h0]
    rw [if_pos hcond]
    have : (padStartZeros (Nat.repr d) (max 3 q.length) == q) = true := by
      simpa [String.ext_iff] using congrArg String.data hpad
    simp [this]
  · intro d q hdig hlen h0 hpad hraw hsuf
    simp only [idTierScore, hdig, if_true]
    have hcond : (1 < q.length && strStarts q "0") = true := by
      simp [hlen, h0]
    rw [if_pos hcond]
    have h1 : (padStartZeros (Nat.repr d) (max 3 q.length) == q) = false := by
      simpa [String.ext_iff] using fun hc => hpad (String.ext hc)
    have h2 : (Nat.repr d == q) = false := by
      simpa [String.ext_iff] using fun hc => hraw (String.ext hc)
    have h3 : (strEnds (Nat.repr d) q || strEnds (padStartZeros (Nat.repr d)
        (max 3 q.length)) q) = true := by
      rcases hsuf with hs | hs <;> simp [hs]
    simp [h1, h2, h3]

/-- Witness for C2: the theorem applied to the concrete `witnessCard`, plus
the two id-tier facts evaluated at real inputs (dexNo 25 query "025" gives
260; dexNo 7 query "07" is a suffix match and gives 180). -/
theorem scorePokemon_leadingZero_spec_witness :
    witnessCard.dexNo = 25 ∧ 260 ≤ scorePokemon witnessCard "025" ∧
      idTierScore 25 "025" = 260 ∧ idTierScore 7 "07" = 180 :=
  ⟨rfl,
   (scorePokemon_leadingZero_spec witnessCard rfl).2.1,
   (scorePokemon_leadingZero_spec witnessCard rfl).2.2.1 25 "025"
     (by decide) (by decide) (by decide) (by decide),
   (scorePokemon_leadingZero_spec witnessCard rfl).2.2.2.1 7 "07"
     (by decide) (by decide) (by decide) (by decide) (by decide)
     (Or.inr (by decide))⟩

end Search

/-- JSON-like JavaScript values as seen by the client: `undefined` is the JS
`undefined`, `num` carries the integral numbers that actually occur in this
data set (floats are out of scope). -/
inductive JsVal where
  | undefined
  | null
  | bool (b : Bool)
  | num (n : Int)
  | str (s : String)
  | arr (items : List JsVal)
  | obj (fields : List (String × JsVal))
  deriving Repr

namespace JsVal

/-- `record[key]` on a JS object: `undefined` when the key is absent. -/
def getField (fields : List (String × JsVal)) (k : String) : JsVal :=
  match fields.find? (fun f => f.1 == k) with
  | some f => f.2
  | none => .undefined

/-- The named-key view used by `typeof payload === "object" && payload !== null`:
arrays are `typeof "object"` too but expose no named string fields. -/
def recordFields : JsVal → Option (List (String × JsVal))
  | .obj fields => some fields
  | .arr _ => some []
  | _ => none

end JsVal

namespace Guard

open JsStr JsVal

/-- `AUTH_EXPIRED_PATTERNS` from authSessionGuard.ts. -/
def authExpiredPatterns : List String :=
  ["jwt expired", "invalid jwt", "expired", "token is expired", "token has expired"]

/-- `pickString` from authSessionGuard.ts: first key whose value is a string
with non-empty trim, returned trimmed. -/
def pickString (record : List (String × JsVal)) : List String → String
  | [] => ""
  | k :: rest =>
    match getField record k with
    | .str s => if (strTrim s).data.isEmpty then pickString record rest else strTrim s
    | _ => pickString record rest

/-- `normalizeMessage` from authSessionGuard.ts. -/
def normalizeMessage (payload : JsVal) (fallback : Option String) : String :=
  match recordFields payload with
  | some fields =>
    let message := pickString fields ["message", "msg", "error", "error_description"]
    if message.data.isEmpty then fallback.getD "" else message
  | none => fallback.getD ""

/-- `isLikelyExpiredMessage` from authSessionGuard.ts: case-insensitive
substring match against the known expiry phrases. -/
def isLikelyExpiredMessage (message : String) : Bool :=
  authExpiredPatterns.any (fun pattern => strIncludes (strLower message) pattern)

/-- `isAuthExpiredError` from authSessionGuard.ts (lines 33-44). -/
def isAuthExpiredError (status : Option Nat) (payload : JsVal)
    (fallbackMessage : Option String) : Bool :=
  let message := normalizeMessage payload fallbackMessage
  if message.data.isEmpty then status == some 401
  else status == some 401 || isLikelyExpiredMessage message

lemma isLikelyExpiredMessage_empty : isLikelyExpiredMessage "" = false := by decide

/-- C7: `isAuthExpiredError` returns true exactly when the status is 401 or
the extracted message matches a known expiry phrase (either condition alone
suffices); in particular a 401 with no parseable message is expired, and a
200 whose message contains "token is expired" is expired. -/
theorem isAuthExpiredError_spec (status : Option Nat) (payload : JsVal)
    (fallback : Option String) :
    (isAuthExpiredError status payload fallback = true ↔
        status = some 401 ∨
          isLikelyExpiredMessage (normalizeMessage payload fallback) = true)
  ∧ isAuthExpiredError (some 401) JsVal.null none = true
  ∧ isAuthExpiredError (some 200)
      (JsVal.obj [("message", JsVal.str "The token is expired, please refresh")])
      none = true := by
  refine ⟨?_, by decide, by decide⟩
  unfold isAuthExpiredError
  by_cases hm : (normalizeMessage payload fallback).data.isEmpty
  · have hstr : normalizeMessage payload fallback = "" := by
      cases hmsg : normalizeMessage payload fallback with
      | mk data => rw [hmsg] at hm; cases data <;> simp_all [String.ext_iff]
    simp [hm, hstr, isLikelyExpiredMessage_empty]
  · simp [hm]

end Guard

namespace Extra

open JsStr JsVal

/-- The `{columns, rows}` display table of AssetDexPage. -/
structure ExtraEffectsTable where
  columns : List String
  rows : List (List String)
  deriving Repr, DecidableEq

/-- JSON string quoting used by the `JSON.stringify` model (quote and
backslash escaped; other escapes do not occur in this data set). -/
def quoteJson (s : String) : String :=
  "\"" ++ ⟨s.data.flatMap (fun c =>
    if c == '"' then ['\\', '"'] else if c == '\\' then ['\\', '\\'] else [c])⟩ ++ "\""

/-- `list.join(",")` from JS. -/
def joinComma : List String → String
  | [] => ""
  | [s] => s
  | s :: rest => s ++ "," ++ joinComma rest

mutual

/-- `JSON.stringify` on the acyclic values of `JsVal`; `none` is the JS
`undefined` result for a top-level `undefined`. -/
def jsonStringify : JsVal → Option String
  | .undefined => none
  | .null => some "null"
  | .bool b => some (if b then "true" else "false")
  | .num n => some (toString n)
  | .str s => some (quoteJson s)
  | .arr items => some ("[" ++ joinComma (stringifyArrItems items) ++ "]")
  | .obj fields => some ("\x7b" ++ joinComma (stringifyObjFields fields) ++ "\x7d")

/-- Array elements: an `undefined` element serializes as "null". -/
def stringifyArrItems : List JsVal → List String
  | [] => []
  | v :: rest => ((jsonStringify v).getD "null") :: stringifyArrItems rest

/-- Object fields: a key with an `undefined` value is skipped. -/
def stringifyObjFields : List (String × JsVal) → List String
  | [] => []
  | (k, v) :: rest =>
    match jsonStringify v with
    | none => stringifyObjFields rest
    | some sv => (quoteJson k ++ ":" ++ sv) :: stringifyObjFields rest

end

/-- `formatExtraEffectCell` from AssetDexPage (`src/unnamed/part_005` lines
542-561). -/
def formatExtraEffectCell : JsVal → String
  | .null => "—"
  | .undefined => "—"
  | .str s => if (strTrim s).data.isEmpty then "—" else strTrim s
  | .num n => toString n
  | .bool b => if b then "true" else "false"
  | v => (jsonStringify v).getD "—"

/-- The `cell === null || type is string/number/boolean` test of
`flattenNamedExtraEffectsField`. -/
def isPrimitiveCell : JsVal → Bool
  | .null => true
  | .str _ => true
  | .num _ => true
  | .bool _ => true
  | _ => false

/-- `value === undefined` in JS. -/
def isUndefinedVal : JsVal → Bool
  | .undefined => true
  | _ => false

/-- `value === null || value === undefined` (the nullish test of `??`). -/
def jsNullish : JsVal → Bool
  | .undefined => true
  | .null => true
  | _ => false

/-- `flattenNamedExtraEffectsField` from AssetDexPage (`src/unnamed/part_005`
lines 563-592). -/
def flattenNamedExtraEffectsField : JsVal → List JsVal
  | .arr items => items
  | .obj fields =>
    if fields.isEmpty then []
    else if fields.all (fun f => isPrimitiveCell f.2) then
      fields.map (fun f => .obj [("level", .str f.1), ("value", f.2)])
    else if fields.all (fun f => isDigitStr f.1) then
      fields.map (fun f => f.2)
    else [.obj fields]
  | v => [v]

/-- `normalizeExtraEffectsSource` from AssetDexPage (`src/unnamed/part_005`
lines 594-622). -/
def normalizeExtraEffectsSource (source : JsVal) : JsVal :=
  match source with
  | .obj fields =>
    let rawStack := getField fields "stack_energy"
    let stackEnergy := if jsNullish rawStack then getField fields "stackEnergy" else rawStack
    let items := getField fields "items"
    if !isUndefinedVal stackEnergy || !isUndefinedVal items then
      let flattenedRows :=
        (flattenNamedExtraEffectsField stackEnergy ++
          flattenNamedExtraEffectsField items).filter (fun e => !isUndefinedVal e)
      match flattenedRows with
      | [] => .null
      | [x] => x
      | x :: y :: rest => .arr (x :: y :: rest)
    else source
  | v => v

/-- Column union of the uniform-object-array branch: keys in first-seen
order. -/
def collectColumns (rows : List JsVal) : List String :=
  rows.foldl (fun cols row =>
    match row with
    | .obj fields => fields.foldl (fun acc f => if acc.contains f.1 then acc else acc ++ [f.1]) cols
    | _ => cols) []

/-- `record[column]` of an array row (undefined when absent or not an object). -/
def rowGet (row : JsVal) (column : String) : JsVal :=
  match row with
  | .obj fields => getField fields column
  | _ => .undefined

/-- The body of `toExtraEffectsTable` after the string-input block: the
null/undefined check, normalization, and the array / object / scalar
branches.  `Object.entries(null)` — reachable because
`normalizeExtraEffectsSource` can return `null` — throws, modelled as
`Except.error`. -/
def tableOfSource (source0 : JsVal) : Except String (Option ExtraEffectsTable) :=
  if jsNullish source0 then .ok none
  else
    match normalizeExtraEffectsSource source0 with
    | .arr items =>
      if items.isEmpty then .ok (some ⟨["extra_effects"], [["—"]]⟩)
      else if !(items.all (fun i => match i with | .obj _ => true | _ => false)) then
        .ok (some ⟨["extra_effects"], items.map (fun i => [formatExtraEffectCell i])⟩)
      else
        let columns := collectColumns items
        if columns.isEmpty then .ok (some ⟨["extra_effects"], [["—"]]⟩)
        else .ok (some ⟨columns,
          items.map (fun row => columns.map (fun c => formatExtraEffectCell (rowGet row c)))⟩)
    | .obj fields =>
      if fields.isEmpty then .ok (some ⟨["key", "value"], [["—", "—"]]⟩)
      else .ok (some ⟨["key", "value"], fields.map (fun f => [f.1, formatExtraEffectCell f.2])⟩)
    | .null => .error "TypeError: Cannot convert undefined or null to object"
    | v => .ok (some ⟨["extra_effects"], [[formatExtraEffectCell v]]⟩)

/-- `toExtraEffectsTable` from AssetDexPage (`src/unnamed/part_005` lines
624-711).  `parse` is the external `JSON.parse` builtin; `none` models a
parse exception, which the source catches. -/
def toExtraEffectsTableE (parse : String → Option JsVal) (extraEffects : JsVal) :
    Except String (Option ExtraEffectsTable) :=
  match extraEffects with
  | .str s =>
    let trimmed := strTrim s
    if trimmed.data.isEmpty then .ok none
    else
      match parse trimmed with
      | none => .ok (some ⟨["extra_effects"], [[trimmed]]⟩)
      | some v => tableOfSource v
  | v => tableOfSource v

/-- C8: the named `stack_energy` map flattens to the two rows
`(level "0", value 600)` and `(level "1", value 1020)` and renders as a
two-row level/value table; a bare scalar `42` renders as a single-column
single-row table; `null` and `undefined` yield no table. -/
theorem toExtraEffectsTable_flatten_spec (parse : String → Option JsVal) :
    normalizeExtraEffectsSource
        (JsVal.obj [("stack_energy", JsVal.obj [("0", JsVal.num 600), ("1", JsVal.num 1020)])])
      = JsVal.arr [JsVal.obj [("level", JsVal.str "0"), ("value", JsVal.num 600)],
                   JsVal.obj [("level", JsVal.str "1"), ("value", JsVal.num 1020)]]
  ∧ toExtraEffectsTableE parse
        (JsVal.obj [("stack_energy", JsVal.obj [("0", JsVal.num 600), ("1", JsVal.num 1020)])])
      = .ok (some ⟨["level", "value"], [["0", "600"], ["1", "1020"]]⟩)
  ∧ toExtraEffectsTableE parse (JsVal.num 42)
      = .ok (some ⟨["extra_effects"], [["42"]]⟩)
  ∧ toExtraEffectsTableE parse JsVal.null = .ok none
  ∧ toExtraEffectsTableE parse JsVal.undefined = .ok none :=
  ⟨rfl, rfl, rfl, rfl, rfl⟩

/-- C9 counter-evidence: on the input `{stack_energy: {}}` the normalizer
returns JS `null`, which then reaches `Object.entries(null)` and throws a
TypeError, so `toExtraEffectsTable` is not total: it can throw. -/
theorem toExtraEffectsTable_throws_on_empty_named_field
    (parse : String → Option JsVal) :
    toExtraEffectsTableE parse (JsVal.obj [("stack_energy", JsVal.obj [])])
      = .error "TypeError: Cannot convert undefined or null to object" :=
  rfl

end Extra

/-- Result source discriminator shared by the loaders. -/
inductive LoadSource where
  | supabase
  | fallback
  deriving Repr, DecidableEq

/-- A value persisted in sessionStorage under one cache key, as seen by the
readers: a parsed `{expiresAt, data}` payload, a parseable value of the
wrong shape (removed on read), or an unparsable string (`JSON.parse` throws,
caught, storage left untouched). -/
inductive StoredCache (α : Type) where
  | valid (expiresAt : Nat) (data : α)
  | badShape
  | unparsable
  deriving Repr, DecidableEq

/-- The common body of `readDexSessionCache` / `readSessionCache` (pokedex.ts
lines 55-81, part_007 lines 891-917, part_008 lines 149-175): returns the
cached data only when `expiresAt > now`, and the updated stored value
(expired or bad-shape entries are removed). -/
def readStoredCache {α : Type} (now : Nat) (stored : Option (StoredCache α)) :
    Option α × Option (StoredCache α) :=
  match stored with
  | none => (none, none)
  | some .badShape => (none, none)
  | some .unparsable => (none, stored)
  | some (.valid e d) => if e ≤ now then (none, none) else (some d, stored)

namespace Dex

open Search

/-- `DEX_CACHE_TTL_MS` (10 minutes). -/
def DEX_CACHE_TTL_MS : Nat := 1000 * 60 * 10

/-- The two cache tiers of pokedex.ts: module-level `dexMemoryCache` and the
sessionStorage entry under `DEX_CACHE_KEY`. -/
structure DexState where
  memory : Option (Nat × List PokemonDexCard)
  session : Option (StoredCache (List PokemonDexCard))
  deriving Repr

/-- How a `fetchDexEntries` call was satisfied. -/
inductive DexServed where
  | envMissing
  | memoryTier
  | sessionTier
  | network
  | networkError
  deriving Repr, DecidableEq

/-- The result record of `fetchDexEntries`. -/
structure DexLoadResult where
  data : List PokemonDexCard
  source : LoadSource
  message : String
  total : Nat
  deriving Repr

/-- `writeDexCache` (pokedex.ts lines 86-103): stamps `now + TTL` into both
tiers; `storageWriteOk = false` models a swallowed sessionStorage failure,
which leaves only the memory tier updated. -/
def writeDexCache (now : Nat) (data : List PokemonDexCard) (storageWriteOk : Bool)
    (s : DexState) : DexState :=
  { memory := some (now + DEX_CACHE_TTL_MS, data)
    session := if storageWriteOk then some (.valid (now + DEX_CACHE_TTL_MS) data) else s.session }

/-- `invalidateDexCache` (pokedex.ts lines 465-477): clears both tiers. -/
def invalidateDexCache (_s : DexState) : DexState :=
  { memory := none, session := none }

/-- The session-tier check and network fallthrough of `fetchDexEntries`
  (pokedex.ts lines 416-462), reached when the memory tier does not hit. -/
def fetchDexEntriesPastMemory (now : Nat) (net : Except String (List PokemonDexCard))
    (storageWriteOk : Bool) (s : DexState) : DexLoadResult × DexServed × DexState :=
  match readStoredCache now s.session with
  | (some cached, session1) =>
    (⟨cached, .supabase, "已从缓存加载 " ++ toString cached.length ++ " 条宝可梦数据。",
      cached.length⟩, .sessionTier,
     { memory := some (now + DEX_CACHE_TTL_MS, cached), session := session1 })
  | (none, session1) =>
    match net with
    | .ok cards =>
      let data := List.insertionSort Search.dexRel cards
      let s2 := writeDexCache now data storageWriteOk { s with session := session1 }
      (⟨data, .supabase, "已加载 " ++ toString data.length ++ " 条宝可梦数据。",
        data.length⟩, .network, s2)
    | .error e =>
      (⟨[], .fallback, "加载真实图鉴失败：" ++ e, 0⟩, .networkError,
       { s with session := session1 })

/-- `fetchDexEntries` (pokedex.ts lines 396-463).  `cfg` is the presence of
the Supabase environment variables; `net` is the oracle for the network
branch and carries the creature cards produced by `getAssetMaps` +
`mapPokemonCard` on the fetched rows (that pure row mapping is outside the
claims about this loader). -/
def fetchDexEntries (cfg : Bool) (now : Nat) (net : Except String (List PokemonDexCard))
    (storageWriteOk : Bool) (s : DexState) : DexLoadResult × DexServed × DexState :=
  if !cfg then
    (⟨[], .fallback, "未检测到 Supabase 环境变量，无法加载真实图鉴数据。", 0⟩, .envMissing, s)
  else
    match s.memory with
    | some mc =>
      if now < mc.1 then
        (⟨mc.2, .supabase, "已从缓存加载 " ++ toString mc.2.length ++ " 条宝可梦数据。",
          mc.2.length⟩, .memoryTier, s)
      else fetchDexEntriesPastMemory now net storageWriteOk s
    | none => fetchDexEntriesPastMemory now net storageWriteOk s

end Dex

namespace Dex

open Search

lemma readStoredCache_fst_some {α : Type} (now : Nat) (st : Option (StoredCache α))
    (d : α) (h : (readStoredCache now st).1 = some d) :
    ∃ e, st = some (.valid e d) ∧ now < e := by
  cases st with
  | none => simp [readStoredCache] at h
  | some c =>
    cases c with
    | valid e dd =>
      by_cases he : e ≤ now
      · simp [readStoredCache, he] at h
      · simp [readStoredCache, he] at h
        exact ⟨e, by rw [h], by omega⟩
    | badShape => simp [readStoredCache] at h
    | unparsable => simp [readStoredCache] at h

lemma readStoredCache_fst_none_of_le {α : Type} (now : Nat)
    (st : Option (StoredCache α)) (h : ∀ e d, st = some (.valid e d) → e ≤ now) :
    (readStoredCache now st).1 = none := by
  cases st with
  | none => simp [readStoredCache]
  | some c =>
    cases c with
    | valid e dd => simp [readStoredCache, h e dd rfl]
    | badShape => simp [readStoredCache]
    | unparsable => simp [readStoredCache]

lemma fetchDexEntriesPastMemory_live (now : Nat)
    (net : Except String (List PokemonDexCard)) (wk : Bool) (s : DexState)
    (h : (readStoredCache now s.session).1 = none) :
    (fetchDexEntriesPastMemory now net wk s).2.1 = DexServed.network ∨
      (fetchDexEntriesPastMemory now net wk s).2.1 = DexServed.networkError := by
  unfold fetchDexEntriesPastMemory
  rcases hrs : readStoredCache now s.session with ⟨fst, snd⟩
  rw [hrs] at h
  simp only at h
  subst h
  cases net <;> simp

lemma fetchDexEntriesPastMemory_ne_memoryTier (now : Nat)
    (net : Except String (List PokemonDexCard)) (wk : Bool) (s : DexState) :
    (fetchDexEntriesPastMemory now net wk s).2.1 ≠ DexServed.memoryTier := by
  unfold fetchDexEntriesPastMemory
  rcases hrs : readStoredCache now s.session with ⟨fst, snd⟩
  cases fst <;> cases net <;> simp

lemma fetchDexEntriesPastMemory_sessionTier (now : Nat)
    (net : Except String (List PokemonDexCard)) (wk : Bool) (s : DexState)
    (r : DexLoadResult) (st : DexState)
    (h : fetchDexEntriesPastMemory now net wk s = (r, DexServed.sessionTier, st)) :
    ∃ e d, s.session = some (StoredCache.valid e d) ∧ now < e := by
  rcases hrs : readStoredCache now s.session with ⟨fst, snd⟩
  unfold fetchDexEntriesPastMemory at h
  rw [hrs] at h
  cases fst with
  | some d =>
    obtain ⟨e, he, hlt⟩ := readStoredCache_fst_some now s.session d (by rw [hrs])
    exact ⟨e, d, he, hlt⟩
  | none => cases net <;> simp at h

/-- C5: `fetchDexEntries` serves neither the memory tier nor the persisted
sessionStorage tier once `now` has reached the stored `expiresAt` (it goes
to the network instead), and conversely a cache tier serves only while its
`expiresAt` is strictly greater than `now`. -/
theorem fetchDexEntries_ttl_boundary (now : Nat)
    (net : Except String (List PokemonDexCard)) (wk : Bool) (s : DexState) :
    ((∀ e d, s.memory = some (e, d) → e ≤ now) →
      (∀ e d, s.session = some (StoredCache.valid e d) → e ≤ now) →
      (fetchDexEntries true now net wk s).2.1 = DexServed.network ∨
        (fetchDexEntries true now net wk s).2.1 = DexServed.networkError)
  ∧ (∀ r st, fetchDexEntries true now net wk s = (r, DexServed.memoryTier, st) →
      ∃ e d, s.memory = some (e, d) ∧ now < e)
  ∧ (∀ r st, fetchDexEntries true now net wk s = (r, DexServed.sessionTier, st) →
      ∃ e d, s.session = some (StoredCache.valid e d) ∧ now < e) := by
  refine ⟨?_, ?_, ?_⟩
  · intro hm hs
    have hnone := readStoredCache_fst_none_of_le now s.session hs
    unfold fetchDexEntries
    cases hmem : s.memory with
    | none => exact fetchDexEntriesPastMemory_live now net wk s hnone
    | some mc =>
      have hle : mc.1 ≤ now := hm mc.1 mc.2 (by rw [hmem])
      have hlt : ¬ now < mc.1 := by omega
      simp only [Bool.not_true, Bool.false_eq_true, if_false, hlt, if_false]
      exact fetchDexEntriesPastMemory_live now net wk s hnone
  · intro r st h
    unfold fetchDexEntries at h
    simp only [Bool.not_true, Bool.false_eq_true, if_false] at h
    split at h
    next mc hmem =>
      by_cases hlt : now < mc.1
      · exact ⟨mc.1, mc.2, hmem, hlt⟩
      · rw [if_neg hlt] at h
        exact absurd (congrArg (fun x => x.2.1) h)
          (by simpa using fetchDexEntriesPastMemory_ne_memoryTier now net wk s)
    next hmem =>
      exact absurd (congrArg (fun x => x.2.1) h)
        (by simpa using fetchDexEntriesPastMemory_ne_memoryTier now net wk s)
  · intro r st h
    unfold fetchDexEntries at h
    simp only [Bool.not_true, Bool.false_eq_true, if_false] at h
    split at h
    next mc hmem =>
      by_cases hlt : now < mc.1
      · rw [if_pos hlt] at h
        simp at h
      · rw [if_neg hlt] at h
        exact fetchDexEntriesPastMemory_sessionTier now net wk s r st h
    next hmem =>
      exact fetchDexEntriesPastMemory_sessionTier now net wk s r st h

/-- Witness for C5: both tiers stamped `expiresAt = 100` and read at
`now = 100` (the boundary instant) fall through to the network. -/
theorem fetchDexEntries_ttl_boundary_witness :
    (fetchDexEntries true 100 (Except.ok []) true
        ⟨some (100, []), some (StoredCache.valid 100 [])⟩).2.1 = DexServed.network ∨
      (fetchDexEntries true 100 (Except.ok []) true
        ⟨some (100, []), some (StoredCache.valid 100 [])⟩).2.1 = DexServed.networkError :=
  (fetchDexEntries_ttl_boundary 100 (Except.ok []) true
      ⟨some (100, []), some (StoredCache.valid 100 [])⟩).1
    (by intro e d h; simp only [Option.some.injEq, Prod.mk.injEq] at h; omega)
    (by intro e d h; simp only [Option.some.injEq, StoredCache.valid.injEq] at h; omega)

end Dex

namespace Catalog

open JsStr JsVal

/-- `list.join("；")` used for aggregated fallback errors. -/
def joinCn : List String → String
  | [] => ""
  | [s] => s
  | s :: rest => s ++ "；" ++ joinCn rest

/-- `effectType` enum of sub-skills. -/
inductive SubSkillEffectType where
  | gold
  | white
  | blue
  | unknown
  deriving Repr, DecidableEq

/-- `AssetDexCard` from types/catalog as produced by `mapCatalogRow`. -/
structure AssetDexCard where
  id : Int
  chineseName : Option String
  name : Option String
  attrText : Option String
  eneryMin : Option Int
  eneryMax : Option Int
  energy : Option Int
  price : Option Int
  description : Option String
  value : Option String
  effectType : SubSkillEffectType
  imageUrl : String
  deriving Repr, DecidableEq

/-- `Number(string)` on the integral strings of this data set: optional
sign, digits, surrounding whitespace; blank strings give 0 (as in JS);
non-integral syntax is out of the modelled fragment and falls through to
the digit-run extraction exactly as a `NaN` would. -/
def jsNumberParse (s : String) : Option Int :=
  let t := (strTrim s).data
  if t.isEmpty then some 0
  else
    match t with
    | '-' :: rest =>
      if !rest.isEmpty && rest.all Char.isDigit then some (-(Int.ofNat (digitsToNat rest)))
      else none
    | '+' :: rest =>
      if !rest.isEmpty && rest.all Char.isDigit then some (Int.ofNat (digitsToNat rest))
      else none
    | l =>
      if l.all Char.isDigit then some (Int.ofNat (digitsToNat l)) else none

/-- `value.match(/\d+/)`: the first maximal run of digits. -/
def firstDigitRun : List Char → Option (List Char)
  | [] => none
  | c :: rest =>
    if c.isDigit then some (c :: rest.takeWhile Char.isDigit)
    else firstDigitRun rest

/-- `parseNumber` from part_007 (lines 719-737): finite number, else full
string parse, else embedded digit run, else null. -/
def parseNumber : JsVal → Option Int
  | .num n => some n
  | .str s =>
    (match jsNumberParse s with
     | some k => some k
     | none =>
       match firstDigitRun s.data with
       | some run => some (Int.ofNat (digitsToNat run))
       | none => none)
  | _ => none

/-- `pickString` from part_007 (lines 739-748). -/
def pickString (record : List (String × JsVal)) (keys : List String)
    (fallback : String) : String :=
  match keys with
  | [] => fallback
  | k :: rest =>
    match getField record k with
    | .str s => if (strTrim s).data.isEmpty then pickString record rest fallback else strTrim s
    | _ => pickString record rest fallback

/-- `pickNullableString` from part_007 (lines 750-759). -/
def pickNullableString (record : List (String × JsVal)) : List String → Option String
  | [] => none
  | k :: rest =>
    match getField record k with
    | .str s =>
      if (strTrim s).data.isEmpty then pickNullableString record rest else some (strTrim s)
    | _ => pickNullableString record rest

/-- `normalizeEffectType` from part_007 (lines 761-772). -/
def normalizeEffectType : JsVal → SubSkillEffectType
  | .str s =>
    let normalized := strLower (strTrim s)
    if normalized == "gold" then .gold
    else if normalized == "white" then .white
    else if normalized == "blue" then .blue
    else .unknown
  | _ => .unknown

/-- `mapCatalogRow` from part_007 (lines 833-853); a falsy id (absent,
non-numeric or 0) rejects the row. -/
def mapCatalogRow (row : List (String × JsVal)) : Option AssetDexCard :=
  match parseNumber (getField row "id") with
  | none => none
  | some id =>
    if id = 0 then none
    else some
      { id := id
        chineseName := pickNullableString row ["chinese_name"]
        name := pickNullableString row ["name"]
        attrText := pickNullableString row ["attribute"]
        eneryMin := (parseNumber (getField row "enery_min")).orElse
          (fun _ => parseNumber (getField row "energy_min"))
        eneryMax := (parseNumber (getField row "enery_max")).orElse
          (fun _ => parseNumber (getField row "energy_max"))
        energy := parseNumber (getField row "energy")
        price := parseNumber (getField row "price")
        description := pickNullableString row ["description"]
        value := pickNullableString row ["value"]
        effectType := normalizeEffectType (getField row "effect_type")
        imageUrl := pickString row ["icon_url", "image_url", "img_url"] "" }

/-- The four asset catalog kinds. -/
inductive AssetDexCatalog where
  | berries
  | ingredients
  | mainskills
  | subskills
  deriving Repr, DecidableEq

/-- `tableCandidates` from part_007 (lines 698-703). -/
def tableCandidates : AssetDexCatalog → List String
  | .berries => ["berries"]
  | .ingredients => ["ingredients"]
  | .mainskills => ["mainskills", "main_skills"]
  | .subskills => ["subskills", "sub_skills"]

/-- `CATALOG_CACHE_TTL_MS` (10 minutes). -/
def CATALOG_CACHE_TTL_MS : Nat := 1000 * 60 * 10

/-- The two cache tiers of part_007, keyed by catalog kind: the module
`memoryCache` map and the sessionStorage entries. -/
structure CatalogState where
  memory : AssetDexCatalog → Option (Nat × List AssetDexCard)
  session : AssetDexCatalog → Option (StoredCache (List AssetDexCard))

/-- How a `fetchAssetDexEntries` call was satisfied. -/
inductive CatalogServed where
  | envMissing
  | memoryTier
  | sessionTier
  | network
  | networkError
  deriving Repr, DecidableEq

/-- The result record of `fetchAssetDexEntries`. -/
structure AssetDexLoadResult where
  data : List AssetDexCard
  source : LoadSource
  message : String
  total : Nat
  deriving Repr

/-- `writeCache` from part_007 (lines 919-935): both tiers stamped with
`now + TTL`; a swallowed sessionStorage failure leaves that tier alone. -/
def writeCache (catalog : AssetDexCatalog) (data : List AssetDexCard) (now : Nat)
    (storageWriteOk : Bool) (s : CatalogState) : CatalogState :=
  { memory := fun c =>
      if c = catalog then some (now + CATALOG_CACHE_TTL_MS, data) else s.memory c
    session := fun c =>
      if c = catalog then
        if storageWriteOk then some (.valid (now + CATALOG_CACHE_TTL_MS) data)
        else s.session c
      else s.session c }

/-- `invalidateAssetDexCache` from part_007 (lines 1090-1102): clears both
tiers for the kind. -/
def invalidateAssetDexCache (catalog : AssetDexCatalog) (s : CatalogState) : CatalogState :=
  { memory := fun c => if c = catalog then none else s.memory c
    session := fun c => if c = catalog then none else s.session c }

/-- `resolveRows` from part_007 (lines 937-949): try table candidates in
order, first success wins, else the joined errors; `net` is the
`fetchTableRows` oracle per table. -/
def resolveRows (net : String → Except String (List (List (String × JsVal)))) :
    List String → List String → Except String (List (List (String × JsVal)))
  | [], errs => .error (joinCn errs)
  | t :: rest, errs =>
    match net t with
    | .ok rows => .ok rows
    | .error e => resolveRows net rest (errs ++ [e])

/-- Ascending-id comparator of the network branch. -/
def idRel (a b : AssetDexCard) : Prop := a.id ≤ b.id

instance : DecidableRel idRel := fun a b => by unfold idRel; infer_instance

instance : IsTotal AssetDexCard idRel := ⟨fun a b => Int.le_total a.id b.id⟩

instance : IsTrans AssetDexCard idRel := ⟨fun _ _ _ h h2 => Int.le_trans h h2⟩

/-- The session-tier check and network fallthrough of `fetchAssetDexEntries`
(part_007 lines 993-1031). -/
def fetchAssetPastMemory (catalog : AssetDexCatalog) (now : Nat)
    (net : String → Except String (List (List (String × JsVal)))) (storageWriteOk : Bool)
    (s : CatalogState) : AssetDexLoadResult × CatalogServed × CatalogState :=
  match readStoredCache now (s.session catalog) with
  | (some cached, session1) =>
    (⟨cached, .supabase, "已从缓存加载 " ++ toString cached.length ++ " 条图鉴数据。",
      cached.length⟩, .sessionTier,
     { memory := fun c =>
         if c = catalog then some (now + CATALOG_CACHE_TTL_MS, cached) else s.memory c
       session := fun c => if c = catalog then session1 else s.session c })
  | (none, session1) =>
    let s1 : CatalogState :=
      { s with session := fun c => if c = catalog then session1 else s.session c }
    match resolveRows net (tableCandidates catalog) [] with
    | .ok rows =>
      let data := List.insertionSort idRel (rows.filterMap mapCatalogRow)
      let s2 := writeCache catalog data now storageWriteOk s1
      (⟨data, .supabase, "已加载 " ++ toString data.length ++ " 条图鉴数据。",
        data.length⟩, .network, s2)
    | .error e =>
      (⟨[], .fallback, "加载图鉴失败：" ++ e, 0⟩, .networkError, s1)

/-- `fetchAssetDexEntries` from part_007 (lines 972-1032). -/
def fetchAssetDexEntries (cfg : Bool) (catalog : AssetDexCatalog) (now : Nat)
    (net : String → Except String (List (List (String × JsVal)))) (storageWriteOk : Bool)
    (s : CatalogState) : AssetDexLoadResult × CatalogServed × CatalogState :=
  if !cfg then
    (⟨[], .fallback, "未检测到 Supabase 环境变量，无法加载图鉴数据。", 0⟩, .envMissing, s)
  else
    match s.memory catalog with
    | some mc =>
      if now < mc.1 then
        (⟨mc.2, .supabase, "已从缓存加载 " ++ toString mc.2.length ++ " 条图鉴数据。",
          mc.2.length⟩, .memoryTier, s)
      else fetchAssetPastMemory catalog now net storageWriteOk s
    | none => fetchAssetPastMemory catalog now net storageWriteOk s

end Catalog

namespace Catalog

lemma fetchAssetPastMemory_live (catalog : AssetDexCatalog) (now : Nat)
    (net : String → Except String (List (List (String × JsVal)))) (wk : Bool)
    (s : CatalogState) (h : (readStoredCache now (s.session catalog)).1 = none) :
    (fetchAssetPastMemory catalog now net wk s).2.1 = CatalogServed.network ∨
      (fetchAssetPastMemory catalog now net wk s).2.1 = CatalogServed.networkError := by
  unfold fetchAssetPastMemory
  rcases hrs : readStoredCache now (s.session catalog) with ⟨fst, snd⟩
  rw [hrs] at h
  simp only at h
  subst h
  cases resolveRows net (tableCandidates catalog) [] <;> simp

lemma fetchAssetPastMemory_network_writes (catalog : AssetDexCatalog) (now : Nat)
    (net : String → Except String (List (List (String × JsVal)))) (wk : Bool)
    (s : CatalogState) (r : AssetDexLoadResult) (st : CatalogState)
    (h : fetchAssetPastMemory catalog now net wk s = (r, CatalogServed.network, st)) :
    st.memory catalog = some (now + CATALOG_CACHE_TTL_MS, r.data) := by
  unfold fetchAssetPastMemory at h
  rcases hrs : readStoredCache now (s.session catalog) with ⟨fst, snd⟩
  rw [hrs] at h
  cases fst with
  | some d => simp at h
  | none =>
    cases hres : resolveRows net (tableCandidates catalog) [] with
    | ok rows =>
      rw [hres] at h
      simp only [Prod.mk.injEq] at h
      obtain ⟨h1, -, h3⟩ := h
      subst h3
      subst h1
      simp [writeCache]
    | error e =>
      rw [hres] at h
      simp at h

lemma fetchAsset_memory_hit (catalog : AssetDexCatalog) (now : Nat)
    (net : String → Except String (List (List (String × JsVal)))) (wk : Bool)
    (s : CatalogState) (e : Nat) (d : List AssetDexCard)
    (hmem : s.memory catalog = some (e, d)) (hlt : now < e) :
    fetchAssetDexEntries true catalog now net wk s =
      (⟨d, LoadSource.supabase, "已从缓存加载 " ++ toString d.length ++ " 条图鉴数据。",
        d.length⟩, CatalogServed.memoryTier, s) := by
  unfold fetchAssetDexEntries
  rw [hmem]
  simp [hlt]

lemma fetchAsset_network_writes (catalog : AssetDexCatalog) (now : Nat)
    (net : String → Except String (List (List (String × JsVal)))) (wk : Bool)
    (s : CatalogState) (r : AssetDexLoadResult) (st : CatalogState)
    (h : fetchAssetDexEntries true catalog now net wk s = (r, CatalogServed.network, st)) :
    st.memory catalog = some (now + CATALOG_CACHE_TTL_MS, r.data) := by
  unfold fetchAssetDexEntries at h
  simp only [Bool.not_true, Bool.false_eq_true, if_false] at h
  split at h
  next mc hmem =>
    by_cases hlt : now < mc.1
    · rw [if_pos hlt] at h
      simp at h
    · rw [if_neg hlt] at h
      exact fetchAssetPastMemory_network_writes catalog now net wk s r st h
  next hmem =>
    exact fetchAssetPastMemory_network_writes catalog now net wk s r st h

lemma dex_memory_hit (now : Nat) (net : Except String (List Search.PokemonDexCard))
    (wk : Bool) (s : Dex.DexState) (e : Nat) (d : List Search.PokemonDexCard)
    (hmem : s.memory = some (e, d)) (hlt : now < e) :
    Dex.fetchDexEntries true now net wk s =
      (⟨d, LoadSource.supabase, "已从缓存加载 " ++ toString d.length ++ " 条宝可梦数据。",
        d.length⟩, Dex.DexServed.memoryTier, s) := by
  unfold Dex.fetchDexEntries
  rw [hmem]
  simp [hlt]

/-- C4: a successful live fetch writes the cache, and an immediately
following read of the same kind is a memory-tier hit that returns the same
data unchanged with the cache-sourced message and no state change; after
invalidating the kind, the next read serves from neither tier and goes to
the network.  The last two conjuncts state the same round trip for the
creature-list cache of pokedex.ts (`writeDexCache` / `invalidateDexCache`). -/
theorem cache_roundtrip_spec (catalog : AssetDexCatalog) (now : Nat)
    (net : String → Except String (List (List (String × JsVal)))) (wk : Bool)
    (s : CatalogState) :
    (∀ r st net2 wk2,
        fetchAssetDexEntries true catalog now net wk s = (r, CatalogServed.network, st) →
        fetchAssetDexEntries true catalog now net2 wk2 st =
          (⟨r.data, LoadSource.supabase,
            "已从缓存加载 " ++ toString r.data.length ++ " 条图鉴数据。", r.data.length⟩,
           CatalogServed.memoryTier, st))
  ∧ (∀ (st : CatalogState) now3 net3 wk3,
        (fetchAssetDexEntries true catalog now3 net3 wk3
            (invalidateAssetDexCache catalog st)).2.1 = CatalogServed.network ∨
          (fetchAssetDexEntries true catalog now3 net3 wk3
            (invalidateAssetDexCache catalog st)).2.1 = CatalogServed.networkError)
  ∧ (∀ (data : List Search.PokemonDexCard) (sD : Dex.DexState) net2 wk2,
        Dex.fetchDexEntries true now net2 wk2 (Dex.writeDexCache now data wk sD) =
          (⟨data, LoadSource.supabase,
            "已从缓存加载 " ++ toString data.length ++ " 条宝可梦数据。", data.length⟩,
           Dex.DexServed.memoryTier, Dex.writeDexCache now data wk sD))
  ∧ (∀ (sD : Dex.DexState) now3 net3 wk3,
        (Dex.fetchDexEntries true now3 net3 wk3 (Dex.invalidateDexCache sD)).2.1 =
            Dex.DexServed.network ∨
          (Dex.fetchDexEntries true now3 net3 wk3 (Dex.invalidateDexCache sD)).2.1 =
            Dex.DexServed.networkError) := by
  refine ⟨?_, ?_, ?_, ?_⟩
  · intro r st net2 wk2 h
    have hmem := fetchAsset_network_writes catalog now net wk s r st h
    exact fetchAsset_memory_hit catalog now net2 wk2 st (now + CATALOG_CACHE_TTL_MS) r.data
      hmem (by simp [CATALOG_CACHE_TTL_MS])
  · intro st now3 net3 wk3
    have hmem : (invalidateAssetDexCache catalog st).memory catalog = none := by
      simp [invalidateAssetDexCache]
    have hsess : (readStoredCache now3 ((invalidateAssetDexCache catalog st).session catalog)).1
        = none := by
      simp [invalidateAssetDexCache, readStoredCache]
    unfold fetchAssetDexEntries
    rw [hmem]
    exact fetchAssetPastMemory_live catalog now3 net3 wk3 _ hsess
  · intro data sD net2 wk2
    exact dex_memory_hit now net2 wk2 (Dex.writeDexCache now data wk sD)
      (now + Dex.DEX_CACHE_TTL_MS) data rfl (by simp [Dex.DEX_CACHE_TTL_MS])
  · intro sD now3 net3 wk3
    have hsess : (readStoredCache now3 (Dex.invalidateDexCache sD).session).1 = none := by
      simp [Dex.invalidateDexCache, readStoredCache]
    unfold Dex.fetchDexEntries
    have hmem : (Dex.invalidateDexCache sD).memory = none := rfl
    rw [hmem]
    exact Dex.fetchDexEntriesPastMemory_live now3 net3 wk3 _ hsess

/-- The empty two-tier catalog cache state. -/
def emptyCatalogState : CatalogState := ⟨fun _ => none, fun _ => none⟩

/-- State after the concrete first fetch of the round-trip witness. -/
def roundtripState : CatalogState :=
  writeCache .berries [] 0 true
    { emptyCatalogState with session := fun c => if c = .berries then none
        else emptyCatalogState.session c }

/-- Witness for C4: a concrete cold fetch of the berries catalog returning
zero rows, followed by an immediate re-read served from memory with the
same (empty) data. -/
theorem cache_roundtrip_spec_witness :
    fetchAssetDexEntries true .berries 0 (fun _ => .ok []) true emptyCatalogState =
      (⟨[], LoadSource.supabase, "已加载 0 条图鉴数据。", 0⟩, CatalogServed.network,
        roundtripState)
  ∧ fetchAssetDexEntries true .berries 0 (fun _ => .error "x") true roundtripState =
      (⟨[], LoadSource.supabase, "已从缓存加载 0 条图鉴数据。", 0⟩,
        CatalogServed.memoryTier, roundtripState) :=
  ⟨rfl,
   (cache_roundtrip_spec .berries 0 (fun _ => .ok []) true emptyCatalogState).1
     ⟨[], LoadSource.supabase, "已加载 0 条图鉴数据。", 0⟩ roundtripState
     (fun _ => .error "x") true rfl⟩

end Catalog

namespace News

open JsStr JsVal

/-- The normalized news record produced by `mapNewsRow` (part_008). -/
structure PokemonNews where
  id : String
  title : String
  category : String
  coverImageUrl : String
  publishedAt : String
  content : String
  deriving Repr, DecidableEq

/-- `NEWS_CACHE_TTL_MS` (8 minutes). -/
def NEWS_CACHE_TTL_MS : Nat := 1000 * 60 * 8

/-- `NEWS_EMPTY_CACHE_TTL_MS` (25 seconds), used for possibly transient
empty results. -/
def NEWS_EMPTY_CACHE_TTL_MS : Nat := 1000 * 25

/-- Splits a character list at whitespace runs into the non-empty tokens:
the combined effect of `replace(/\s+/g, " ")`, `trim` and `split(" ")` in
`normalizeCategory`. -/
def wsTokensGo (cur : List Char) (acc : List (List Char)) : List Char → List (List Char)
  | [] => if cur.isEmpty then acc.reverse else (cur.reverse :: acc).reverse
  | c :: rest =>
    if isWs c then
      if cur.isEmpty then wsTokensGo [] acc rest
      else wsTokensGo [] (cur.reverse :: acc) rest
    else wsTokensGo (c :: cur) acc rest

/-- The whitespace-separated tokens of a string. -/
def wsTokens (s : String) : List String :=
  (wsTokensGo [] [] s.data).map String.mk

/-- Removal of consecutive duplicate tokens (`deduped.at(-1) !== token`). -/
def dedupAdjGo (prev : String) : List String → List String
  | [] => []
  | y :: rest => if y == prev then dedupAdjGo prev rest else y :: dedupAdjGo y rest

/-- First element plus the deduplicated tail. -/
def dedupAdj : List String → List String
  | [] => []
  | x :: rest => x :: dedupAdjGo x rest

/-- `normalizeCategory` from part_008 (lines 36-51). -/
def normalizeCategory (value : String) : String :=
  let tokens := wsTokens value
  if tokens.isEmpty then "未分类"
  else joinSpace (dedupAdj tokens)

/-- `pickFirstString` from part_008 (lines 53-60). -/
def pickFirstString : List JsVal → String
  | [] => ""
  | v :: rest =>
    match v with
    | .str s => if (strTrim s).data.isEmpty then pickFirstString rest else strTrim s
    | _ => pickFirstString rest

/-- `a ?? b` of two record fields. -/
def nullish (a b : JsVal) : JsVal :=
  match a with
  | .undefined => b
  | .null => b
  | v => v

/-- `resolveContent` from part_008 (lines 62-92); the `JSON.stringify`
fallback of structured content is modelled without its 2-space indentation
(no claim depends on the whitespace of this display text). -/
def resolveContent (row : List (String × JsVal)) : String :=
  let direct := pickFirstString
    [getField row "content_markdown", getField row "content", getField row "body",
     getField row "full_content", getField row "html_content",
     getField row "markdown_content", getField row "markdown",
     getField row "md_content", getField row "article_content",
     getField row "news_content", getField row "detail_content",
     getField row "description", getField row "summary"]
  if !(direct.data.isEmpty) then direct
  else
    let structured := nullish (getField row "content_json")
      (nullish (getField row "body_json")
        (nullish (getField row "detail_json")
          (nullish (getField row "markdown_blocks") (getField row "contents"))))
    match structured with
    | .arr items => (Extra.jsonStringify (.arr items)).getD ""
    | .obj fields => (Extra.jsonStringify (.obj fields)).getD ""
    | _ => ""

/-- `mapNewsRow` from part_008 (lines 94-138). -/
def mapNewsRow (row : List (String × JsVal)) : Option PokemonNews :=
  let id :=
    match getField row "id" with
    | .str s => strTrim s
    | .num n => toString n
    | _ => ""
  let title := Catalog.pickString row ["title", "headline", "news_title", "subject"] ""
  if id.data.isEmpty || title.data.isEmpty then none
  else some
    { id := id
      title := title
      category := normalizeCategory
        (Catalog.pickString row ["category", "category_name", "type", "news_category"] "未分类")
      coverImageUrl := Catalog.pickString row
        ["cover_image_storage_url", "storage_cover_url", "cover_storage_url", "cover_image",
         "cover_image_url", "cover_url", "image_url", "thumbnail_url", "thumbnail", "cover",
         "eyecatch", "image"] ""
      publishedAt := Catalog.pickString row
        ["published_at", "publish_time", "published_date", "publishedAt", "date", "news_time",
         "created_at", "updated_at"] ""
      content := resolveContent row }

/-- `toDateMs` from part_008 (lines 140-147); `dparse` is the external
`Date.parse` builtin (`none` models `NaN`). -/
def toDateMs (dparse : String → Option Int) (dateText : String) : Int :=
  if dateText.data.isEmpty then 0
  else
    match dparse dateText with
    | some parsed => parsed
    | none => 0

/-- Descending `publishedAt` comparator of the news sort. -/
def dateRel (dparse : String → Option Int) (a b : PokemonNews) : Prop :=
  toDateMs dparse b.publishedAt ≤ toDateMs dparse a.publishedAt

/-- The two cache tiers of part_008: `newsMemoryCache` and the
sessionStorage entry under `NEWS_CACHE_KEY`. -/
structure NewsState where
  memory : Option (Nat × List PokemonNews)
  session : Option (StoredCache (List PokemonNews))
  deriving Repr

/-- How a `fetchPokemonNews` call was satisfied. -/
inductive NewsServed where
  | envMissing
  | memoryTier
  | sessionTier
  | network
  | networkKeptPrevious
  | networkError
  deriving Repr, DecidableEq

/-- The result record of `fetchPokemonNews`; the absent optional
`fromCache` field is `false`. -/
structure NewsLoadResult where
  data : List PokemonNews
  source : LoadSource
  fromCache : Bool
  message : String
  total : Nat
  deriving Repr, DecidableEq

/-- One network exchange of the news fetch: a 2xx response carrying rows
(a non-array payload gives no rows), a non-2xx response carrying the parsed
error payload, or a rejected fetch / body read. -/
inductive NetResp where
  | ok (rows : List (List (String × JsVal)))
  | fail (payload : JsVal)
  | netThrow (msg : String)

/-- `writeCache` from part_008 (lines 177-194). -/
def writeCache (now : Nat) (data : List PokemonNews) (ttlMs : Nat) (storageWriteOk : Bool)
    (s : NewsState) : NewsState :=
  { memory := some (now + ttlMs, data)
    session := if storageWriteOk then some (.valid (now + ttlMs) data) else s.session }

/-- `String(payload.message ?? "Unknown PostgREST error")` of the non-2xx
branch (part_008 lines 249-254). -/
def errorMessageOfPayload (payload : JsVal) : String :=
  match recordFields payload with
  | some fields =>
    let m := getField fields "message"
    if Extra.jsNullish m then "Unknown PostgREST error"
    else
      match m with
      | .str s => s
      | .num n => toString n
      | .bool b => if b then "true" else "false"
      | _ => "[object Object]"
  | none => "Unknown PostgREST error"

/-- The network branch of `fetchPokemonNews` (part_008 lines 240-296),
reached when neither cache tier hits. -/
def fetchNewsNetwork (now : Nat) (resp : NetResp) (storageWriteOk : Bool)
    (dparse : String → Option Int) (s1 : NewsState) :
    NewsLoadResult × NewsServed × NewsState :=
  match resp with
  | .netThrow msg =>
    (⟨[], .fallback, false, "新闻加载失败：" ++ msg, 0⟩, .networkError, s1)
  | .fail payload =>
    (⟨[], .fallback, false, "新闻加载失败：" ++ errorMessageOfPayload payload, 0⟩,
      .networkError, s1)
  | .ok rows =>
    let data := @List.insertionSort _ (dateRel dparse) (fun _ _ => Int.decLe _ _)
      (rows.filterMap mapNewsRow)
    if !data.isEmpty then
      (⟨data, .supabase, false, "已加载 " ++ toString data.length ++ " 条新闻。",
        data.length⟩, .network, writeCache now data NEWS_CACHE_TTL_MS storageWriteOk s1)
    else
      let previousValid := match s1.memory with
        | some mc => mc.2
        | none => []
      if !previousValid.isEmpty then
        (⟨previousValid, .supabase, true, "本次请求返回空结果，已保留上次有效新闻缓存。",
          previousValid.length⟩, .networkKeptPrevious,
         writeCache now previousValid NEWS_EMPTY_CACHE_TTL_MS storageWriteOk s1)
      else
        (⟨[], .supabase, false, "已加载 0 条新闻。", 0⟩, .network,
         writeCache now [] NEWS_EMPTY_CACHE_TTL_MS storageWriteOk s1)

/-- The session-tier check and network fallthrough of `fetchPokemonNews`;
a forced call skips the session tier without touching it. -/
def fetchNewsPastMemory (force : Bool) (now : Nat) (resp : NetResp) (storageWriteOk : Bool)
    (dparse : String → Option Int) (s : NewsState) :
    NewsLoadResult × NewsServed × NewsState :=
  match (if force then (none, s.session) else readStoredCache now s.session) with
  | (some cached, session1) =>
    (⟨cached, .supabase, true, "已从缓存加载 " ++ toString cached.length ++ " 条新闻。",
      cached.length⟩, .sessionTier,
     { memory := some (now + NEWS_CACHE_TTL_MS, cached), session := session1 })
  | (none, session1) =>
    fetchNewsNetwork now resp storageWriteOk dparse { s with session := session1 }

/-- `fetchPokemonNews` from part_008 (lines 203-297). -/
def fetchPokemonNews (cfg force : Bool) (now : Nat) (resp : NetResp) (storageWriteOk : Bool)
    (dparse : String → Option Int) (s : NewsState) :
    NewsLoadResult × NewsServed × NewsState :=
  if !cfg then
    (⟨[], .fallback, false, "未检测到 Supabase 环境变量，无法加载新闻数据。", 0⟩,
      .envMissing, s)
  else
    match s.memory with
    | some mc =>
      if !force && now < mc.1 then
        (⟨mc.2, .supabase, true, "已从缓存加载 " ++ toString mc.2.length ++ " 条新闻。",
          mc.2.length⟩, .memoryTier, s)
      else fetchNewsPastMemory force now resp storageWriteOk dparse s
    | none => fetchNewsPastMemory force now resp storageWriteOk dparse s

end News

namespace News

lemma fetchNewsNetwork_empty_keeps (now : Nat) (rows : List (List (String × JsVal)))
    (wk : Bool) (dparse : String → Option Int) (s1 : NewsState)
    (mc : Nat × List PokemonNews) (hmem : s1.memory = some mc) (hne : mc.2 ≠ [])
    (hmapped : rows.filterMap mapNewsRow = []) :
    fetchNewsNetwork now (.ok rows) wk dparse s1 =
      (⟨mc.2, .supabase, true, "本次请求返回空结果，已保留上次有效新闻缓存。", mc.2.length⟩,
       .networkKeptPrevious, writeCache now mc.2 NEWS_EMPTY_CACHE_TTL_MS wk s1) := by
  have hemp : mc.2.isEmpty = false := by
    cases hmc : mc.2 with
    | nil => exact absurd hmc hne
    | cons a l => rfl
  unfold fetchNewsNetwork
  simp [hmapped, hmem, hemp]

lemma fetchNewsPastMemory_to_network (force : Bool) (now : Nat) (resp : NetResp)
    (wk : Bool) (dparse : String → Option Int) (s : NewsState)
    (hsess : force = true ∨ (readStoredCache now s.session).1 = none) :
    ∃ s1 : NewsState, fetchNewsPastMemory force now resp wk dparse s =
        fetchNewsNetwork now resp wk dparse s1 ∧ s1.memory = s.memory := by
  cases force with
  | true =>
    exact ⟨{ s with session := s.session }, rfl, rfl⟩
  | false =>
    have hn : (readStoredCache now s.session).1 = none := by
      rcases hsess with h | h
      · exact absurd h (by simp)
      · exact h
    rcases hrs : readStoredCache now s.session with ⟨fst, snd⟩
    rw [hrs] at hn
    simp only at hn
    subst hn
    refine ⟨{ s with session := snd }, ?_, rfl⟩
    unfold fetchNewsPastMemory
    rw [if_neg (by simp), hrs]

/-- C10: when the network returns zero usable news rows while the in-memory
news cache still holds a non-empty list (fresh or expired), `fetchPokemonNews`
returns that previous list as a cache-sourced result, re-stamps it with the
short 25-second TTL, and the memory tier never goes from non-empty to
empty. -/
theorem fetchPokemonNews_keeps_nonempty (force : Bool) (now : Nat)
    (rows : List (List (String × JsVal))) (wk : Bool) (dparse : String → Option Int)
    (s : NewsState) (mc : Nat × List PokemonNews)
    (hmem : s.memory = some mc) (hne : mc.2 ≠ [])
    (hmapped : rows.filterMap mapNewsRow = [])
    (hreach : force = true ∨ (mc.1 ≤ now ∧ (readStoredCache now s.session).1 = none)) :
    (fetchPokemonNews true force now (.ok rows) wk dparse s).1 =
        ⟨mc.2, .supabase, true, "本次请求返回空结果，已保留上次有效新闻缓存。", mc.2.length⟩
  ∧ (fetchPokemonNews true force now (.ok rows) wk dparse s).2.1 = .networkKeptPrevious
  ∧ (fetchPokemonNews true force now (.ok rows) wk dparse s).2.2.memory =
        some (now + NEWS_EMPTY_CACHE_TTL_MS, mc.2)
  ∧ (∀ e dd, (fetchPokemonNews true force now (.ok rows) wk dparse s).2.2.memory =
        some (e, dd) → dd ≠ []) := by
  have hpast : fetchPokemonNews true force now (.ok rows) wk dparse s =
      fetchNewsPastMemory force now (.ok rows) wk dparse s := by
    unfold fetchPokemonNews
    rw [hmem]
    cases force with
    | true => simp
    | false =>
      rcases hreach with h | ⟨hle, -⟩
      · exact absurd h (by simp)
      · have hnlt : ¬ now < mc.1 := by omega
        simp [hnlt]
  have hsess : force = true ∨ (readStoredCache now s.session).1 = none := by
    rcases hreach with h | ⟨-, h⟩
    · exact Or.inl h
    · exact Or.inr h
  obtain ⟨s1, hnet, hm1⟩ := fetchNewsPastMemory_to_network force now (.ok rows) wk dparse s hsess
  have hout := fetchNewsNetwork_empty_keeps now rows wk dparse s1 mc (hm1.trans hmem) hne hmapped
  rw [hpast, hnet, hout]
  refine ⟨rfl, rfl, rfl, ?_⟩
  intro e dd hdd
  simp only [writeCache, Option.some.injEq, Prod.mk.injEq] at hdd
  rw [← hdd.2]
  exact hne

/-- Concrete news item used by the witnesses. -/
def newsW : PokemonNews := ⟨"1", "title", "未分类", "", "", ""⟩

/-- Witness for C10: a forced refetch that gets zero rows while the memory
tier holds one expired item keeps that item, reports it cache-sourced, and
re-stamps the 25-second TTL. -/
theorem fetchPokemonNews_keeps_nonempty_witness :
    (fetchPokemonNews true true 100 (.ok []) true (fun _ => none)
        ⟨some (50, [newsW]), none⟩).1 =
      ⟨[newsW], .supabase, true, "本次请求返回空结果，已保留上次有效新闻缓存。", 1⟩ :=
  (fetchPokemonNews_keeps_nonempty true 100 [] true (fun _ => none)
    ⟨some (50, [newsW]), none⟩ (50, [newsW]) rfl (by decide) rfl (Or.inl rfl)).1

/-- `loadNews` from NewsPage.tsx (lines 37-91): after a successful load it
schedules one background forced revalidation exactly when the result was a
cache hit, the call itself is not a background one, and the in-flight guard
`isRevalidatingRef` is clear; the guard is held while that background call
runs.  The second component lists the `(force, background)` parameters of
the scheduled calls; the third is the guard value while they run. -/
def loadNews (cfg force background guard : Bool) (now : Nat) (resp : NetResp)
    (wk : Bool) (dparse : String → Option Int) (s : NewsState) :
    (NewsLoadResult × NewsServed × NewsState) × List (Bool × Bool) × Bool :=
  let out := fetchPokemonNews cfg force now resp wk dparse s
  if out.1.source = LoadSource.supabase then
    if out.1.fromCache && !background && !guard then
      (out, [(true, true)], true)
    else (out, [], guard)
  else (out, [], guard)

lemma fetchNewsNetwork_served (now : Nat) (resp : NetResp) (wk : Bool)
    (dparse : String → Option Int) (s1 : NewsState) :
    (fetchNewsNetwork now resp wk dparse s1).2.1 = .network ∨
      (fetchNewsNetwork now resp wk dparse s1).2.1 = .networkKeptPrevious ∨
      (fetchNewsNetwork now resp wk dparse s1).2.1 = .networkError := by
  unfold fetchNewsNetwork
  cases resp with
  | netThrow m => simp
  | fail p => simp
  | ok rows =>
    dsimp only
    split
    · simp
    · split
      · simp
      · simp

lemma fetchNewsPastMemory_sessionTier_flags (force : Bool) (now : Nat) (resp : NetResp)
    (wk : Bool) (dparse : String → Option Int) (s : NewsState)
    (r : NewsLoadResult) (st : NewsState)
    (h : fetchNewsPastMemory force now resp wk dparse s = (r, .sessionTier, st)) :
    r.fromCache = true ∧ r.source = LoadSource.supabase := by
  unfold fetchNewsPastMemory at h
  rcases hrs : (if force then ((none : Option (List PokemonNews)), s.session)
      else readStoredCache now s.session) with ⟨fst, snd⟩
  rw [hrs] at h
  cases fst with
  | some d =>
    simp only [Prod.mk.injEq] at h
    obtain ⟨h1, -, -⟩ := h
    subst h1
    exact ⟨rfl, rfl⟩
  | none =>
    have hserved := fetchNewsNetwork_served now resp wk dparse { s with session := snd }
    have h21 := congrArg (fun x => x.2.1) h
    simp only at h21
    rw [h21] at hserved
    rcases hserved with hc | hc | hc <;> simp at hc

lemma fetchNews_sessionTier_flags (force : Bool) (now : Nat) (resp : NetResp)
    (wk : Bool) (dparse : String → Option Int) (s : NewsState)
    (r : NewsLoadResult) (st : NewsState)
    (h : fetchPokemonNews true force now resp wk dparse s = (r, .sessionTier, st)) :
    r.fromCache = true ∧ r.source = LoadSource.supabase := by
  unfold fetchPokemonNews at h
  simp only [Bool.not_true, Bool.false_eq_true, if_false] at h
  split at h
  next mc hm =>
    split at h
    · simp at h
    · exact fetchNewsPastMemory_sessionTier_flags force now resp wk dparse s r st h
  next hm =>
    exact fetchNewsPastMemory_sessionTier_flags force now resp wk dparse s r st h

/-- C6: a news load served from the persisted tier (and therefore not from
memory) that is itself a foreground call with the in-flight guard clear
schedules exactly one background forced refetch and holds the guard while
it runs; a set guard suppresses any new background revalidation, and a
background call never cascades another one. -/
theorem loadNews_swr_spec (force background guard : Bool) (now : Nat) (resp : NetResp)
    (wk : Bool) (dparse : String → Option Int) (s : NewsState) :
    (∀ r st, fetchPokemonNews true force now resp wk dparse s = (r, .sessionTier, st) →
        background = false → guard = false →
        (loadNews true force background guard now resp wk dparse s).2 = ([(true, true)], true))
  ∧ (guard = true → (loadNews true force background guard now resp wk dparse s).2.1 = [])
  ∧ (background = true → (loadNews true force background guard now resp wk dparse s).2.1 = []) := by
  refine ⟨?_, ?_, ?_⟩
  · intro r st h hbg hgd
    subst hbg
    subst hgd
    obtain ⟨hfc, hsrc⟩ := fetchNews_sessionTier_flags force now resp wk dparse s r st h
    unfold loadNews
    rw [h]
    simp [hsrc, hfc]
  · intro hg
    subst hg
    unfold loadNews
    dsimp only
    split
    · simp
    · rfl
  · intro hb
    subst hb
    unfold loadNews
    dsimp only
    split
    · simp
    · rfl

/-- Witness for C6: a concrete persisted-tier hit (empty memory, valid
session entry) in a foreground call with a clear guard schedules exactly
the one forced background refetch. -/
theorem loadNews_swr_spec_witness :
    (loadNews true false false false 0 (.ok []) true (fun _ => none)
        ⟨none, some (.valid 1 [newsW])⟩).2 = ([(true, true)], true) :=
  (loadNews_swr_spec false false false 0 (.ok []) true (fun _ => none)
      ⟨none, some (.valid 1 [newsW])⟩).1
    ⟨[newsW], .supabase, true, "已从缓存加载 1 条新闻。", 1⟩
    ⟨some (0 + NEWS_CACHE_TTL_MS, [newsW]), some (.valid 1 [newsW])⟩
    rfl rfl rfl

end News

namespace MsAdmin

open JsStr JsVal

/-- `mainSkillTableCandidates` from mainSkillsAdmin.ts (line 72). -/
def mainSkillTableCandidates : List String := ["mainskills"]

/-- `levelTableCandidates` from mainSkillsAdmin.ts (line 73). -/
def levelTableCandidates : List String := ["mainskill_levels"]

/-- `levelForeignKeyCandidates` from mainSkillsAdmin.ts (line 74). -/
def levelForeignKeyCandidates : List String := ["mainskill_id"]

/-- One level row of the create/update form. -/
structure MsLevelInput where
  level : Nat
  value : JsVal
  extraEffects : JsVal
  deriving Repr

/-- `CreateMainSkillInput` (the session field is implicit in the oracles);
`imageFile` records whether a local file is attached. -/
structure CreateMainSkillInput where
  skillId : Nat
  name : String
  chineseName : String
  description : String
  imageUrl : Option String
  imageFile : Bool
  levels : List MsLevelInput
  deriving Repr

/-- `UpsertMainSkillResult` from mainSkillsAdmin.ts. -/
structure UpsertMainSkillResult where
  mainSkillId : Nat
  levelCount : Nat
  imageUrl : String
  deriving Repr, DecidableEq

/-- The backend rows touched by the create workflow: parent ids in the
`mainskills` table, skill ids that own level rows, and uploaded storage
object paths. -/
structure MsState where
  parents : List Nat
  levelLinks : List Nat
  images : List String
  deriving Repr, DecidableEq

/-- Outcomes of each HTTP call of the workflow, fixed per call site: the
image upload, the parent insert (HTTP outcome and validity of the returned
id), the child delete / insert, the rollback delete and the best-effort
image delete. -/
structure MsBackend where
  uploadOk : Bool
  uploadMsg : String
  uploadPath : String
  parentInsertHttpOk : Bool
  parentInsertIdValid : Bool
  parentInsertMsg : String
  levelDeleteOk : Bool
  levelDeleteMsg : String
  levelInsertOk : Bool
  levelInsertMsg : String
  rollbackDeleteOk : Bool
  imageDeleteOk : Bool
  deriving Repr

/-- The `extra_effects` normalization of the level-row build
(mainSkillsAdmin.ts lines 492-497): empty/blank strings and `undefined`
become SQL null. -/
def levelRowExtraEffects (v : JsVal) : JsVal :=
  match v with
  | .undefined => .null
  | .str s => if (strTrim s).data.isEmpty then .null else .str s
  | w => w

/-- The `levelRows` payload of `replaceLevels` (lines 488-499). -/
def mkLevelRows (skillId : Nat) (description : String) (fk : String)
    (levels : List MsLevelInput) : List (List (String × JsVal)) :=
  levels.map (fun item =>
    [("level", .num item.level), ("value", item.value), ("description", .str description),
     ("extra_effects", levelRowExtraEffects item.extraEffects), (fk, .num skillId)])

/-- The candidate loop of `insertMainSkill` (lines 402-446): on HTTP success
the row exists; an invalid returned id still leaves the row behind and
continues the loop. -/
def insertMainSkillGo (b : MsBackend) (skillId : Nat) :
    List String → List String → MsState → (Except String (Nat × String)) × MsState
  | [], errors, s => (.error ("创建主技能失败：" ++ Catalog.joinCn errors), s)
  | table :: rest, errors, s =>
    if b.parentInsertHttpOk then
      let s1 := { s with parents := s.parents ++ [skillId] }
      if b.parentInsertIdValid then (.ok (skillId, table), s1)
      else insertMainSkillGo b skillId rest
        (errors ++ [table ++ ": insert succeeded but returned id is invalid"]) s1
    else insertMainSkillGo b skillId rest (errors ++ [table ++ ": " ++ b.parentInsertMsg]) s

/-- `insertMainSkill` over its candidate tables. -/
def insertMainSkill (b : MsBackend) (skillId : Nat) (s : MsState) :
    (Except String (Nat × String)) × MsState :=
  insertMainSkillGo b skillId mainSkillTableCandidates [] s

/-- `DELETE <levelTable>?<fk>=eq.<skillId>`. -/
def deleteLevelsStep (b : MsBackend) (skillId : Nat) (s : MsState) : Bool × MsState :=
  if b.levelDeleteOk then
    (true, { s with levelLinks := s.levelLinks.filter (fun k => k != skillId) })
  else (false, s)

/-- `POST <levelTable>` with the rebuilt level rows. -/
def insertLevelsStep (b : MsBackend) (skillId : Nat) (s : MsState) : Bool × MsState :=
  if b.levelInsertOk then (true, { s with levelLinks := s.levelLinks ++ [skillId] })
  else (false, s)

/-- The table/foreign-key pairs tried by `replaceLevels`. -/
def levelTablePairs : List (String × String) :=
  levelTableCandidates.flatMap (fun t => levelForeignKeyCandidates.map (fun fk => (t, fk)))

/-- The `levels.length === 0` branch of `replaceLevels` (lines 454-471). -/
def replaceLevelsEmptyGo (b : MsBackend) (skillId : Nat) :
    List (String × String) → MsState → (Except String (String × String × Nat)) × MsState
  | [], s => (.error "未找到可用的主技能等级表结构。", s)
  | (table, fk) :: rest, s =>
    match deleteLevelsStep b skillId s with
    | (true, s1) => (.ok (table, fk, 0), s1)
    | (false, s1) => replaceLevelsEmptyGo b skillId rest s1

/-- The delete-then-reinsert loop of `replaceLevels` (lines 474-513); a
successful delete whose reinsert fails leaves the deletion behind. -/
def replaceLevelsGo (b : MsBackend) (skillId : Nat) (description : String)
    (levels : List MsLevelInput) :
    List (String × String) → List String → MsState →
      (Except String (String × String × Nat)) × MsState
  | [], errs, s => (.error ("创建主技能等级失败：" ++ Catalog.joinCn errs), s)
  | (table, fk) :: rest, errs, s =>
    match deleteLevelsStep b skillId s with
    | (false, s1) =>
      replaceLevelsGo b skillId description levels rest
        (errs ++ [table ++ "." ++ fk ++ " delete: " ++ b.levelDeleteMsg]) s1
    | (true, s1) =>
      let _rows := mkLevelRows skillId description fk levels
      match insertLevelsStep b skillId s1 with
      | (true, s2) => (.ok (table, fk, levels.length), s2)
      | (false, s2) =>
        replaceLevelsGo b skillId description levels rest
          (errs ++ [table ++ "." ++ fk ++ " insert: " ++ b.levelInsertMsg]) s2

/-- `replaceLevels` from mainSkillsAdmin.ts (lines 448-514). -/
def replaceLevels (b : MsBackend) (skillId : Nat) (description : String)
    (levels : List MsLevelInput) (s : MsState) :
    (Except String (String × String × Nat)) × MsState :=
  if levels.isEmpty then replaceLevelsEmptyGo b skillId levelTablePairs s
  else replaceLevelsGo b skillId description levels levelTablePairs [] s

/-- `deleteById` from mainSkillsAdmin.ts (lines 289-296), on the parent
table: a successful delete removes every row with that id. -/
def deleteById (b : MsBackend) (_table : String) (id : Nat) (s : MsState) : Bool × MsState :=
  if b.rollbackDeleteOk then
    (true, { s with parents := s.parents.filter (fun k => k != id) })
  else (false, s)

/-- `resolveImageUrl` from mainSkillsAdmin.ts (lines 378-400); the public
URL of an upload is its object path behind the public storage route (URL
encoding of plain paths is the identity here). -/
def resolveImageUrl (b : MsBackend) (input : CreateMainSkillInput) (s : MsState) :
    (Except String (String × Option String)) × MsState :=
  if input.imageFile then
    if b.uploadOk then
      ((.ok ("/storage/v1/object/public/pokemon-assets/" ++ b.uploadPath, some b.uploadPath)),
       { s with images := s.images ++ [b.uploadPath] })
    else (.error ("上传主技能图片失败：" ++ b.uploadMsg), s)
  else
    let imageUrl := strTrim (input.imageUrl.getD "")
    if imageUrl.data.isEmpty then (.error "请填写 image_url 或选择本地图片上传。", s)
    else (.ok (imageUrl, none), s)

/-- The swallowed best-effort `deleteMainSkillImage` of the outer catch
(lines 638-640). -/
def cleanupUploaded (b : MsBackend) (uploaded : Option String) (s : MsState) : MsState :=
  match uploaded with
  | some p => if b.imageDeleteOk then { s with images := s.images.filter (fun q => q != p) } else s
  | none => s

/-- `createMainSkillWithLevels` from mainSkillsAdmin.ts (lines 607-644). -/
def createMainSkillWithLevels (cfg : Bool) (b : MsBackend) (input : CreateMainSkillInput)
    (s0 : MsState) : (Except String UpsertMainSkillResult) × MsState :=
  if !cfg then
    (.error "缺少 Supabase 环境变量，请配置 VITE_SUPABASE_URL 与 VITE_SUPABASE_ANON_KEY。", s0)
  else
    match resolveImageUrl b input s0 with
    | (.error e, s1) => (.error e, s1)
    | (.ok (imageUrl, uploaded), s1) =>
      match insertMainSkill b input.skillId s1 with
      | (.error e, s2) => (.error e, cleanupUploaded b uploaded s2)
      | (.ok (createdId, createdTable), s2) =>
        match replaceLevels b createdId input.description input.levels s2 with
        | (.ok (_, _, levelCount), s3) =>
          (.ok ⟨createdId, levelCount, imageUrl⟩, s3)
        | (.error e, s3) =>
          match deleteById b createdTable createdId s3 with
          | (rollbackOk, s4) =>
            let rollbackMessage :=
              if rollbackOk then "已回滚主技能数据。"
              else "主技能已创建但等级写入失败，且回滚失败，请手动检查。"
            (.error (e ++ "。" ++ rollbackMessage), cleanupUploaded b uploaded s4)

end MsAdmin

namespace MsAdmin

lemma replaceLevelsEmptyGo_fst_const (b : MsBackend) (skillId : Nat)
    (pairs : List (String × String)) :
    ∀ s s2 : MsState, (replaceLevelsEmptyGo b skillId pairs s).1 =
      (replaceLevelsEmptyGo b skillId pairs s2).1 := by
  induction pairs with
  | nil => intro s s2; rfl
  | cons p rest ih =>
    intro s s2
    obtain ⟨table, fk⟩ := p
    by_cases hd : b.levelDeleteOk <;>
      simp [replaceLevelsEmptyGo, deleteLevelsStep, hd] <;> apply ih

lemma replaceLevelsGo_fst_const (b : MsBackend) (skillId : Nat) (description : String)
    (levels : List MsLevelInput) (pairs : List (String × String)) :
    ∀ (errs : List String) (s s2 : MsState),
      (replaceLevelsGo b skillId description levels pairs errs s).1 =
        (replaceLevelsGo b skillId description levels pairs errs s2).1 := by
  induction pairs with
  | nil => intro errs s s2; rfl
  | cons p rest ih =>
    intro errs s s2
    obtain ⟨table, fk⟩ := p
    by_cases hd : b.levelDeleteOk <;> by_cases hi : b.levelInsertOk <;>
      simp [replaceLevelsGo, deleteLevelsStep, insertLevelsStep, hd, hi] <;> apply ih

lemma replaceLevels_fst_const (b : MsBackend) (skillId : Nat) (description : String)
    (levels : List MsLevelInput) (s s2 : MsState) :
    (replaceLevels b skillId description levels s).1 =
      (replaceLevels b skillId description levels s2).1 := by
  unfold replaceLevels
  by_cases hl : levels.isEmpty <;> simp [hl]
  · apply replaceLevelsEmptyGo_fst_const
  · apply replaceLevelsGo_fst_const

lemma replaceLevelsEmptyGo_parents (b : MsBackend) (skillId : Nat)
    (pairs : List (String × String)) :
    ∀ s : MsState, (replaceLevelsEmptyGo b skillId pairs s).2.parents = s.parents := by
  induction pairs with
  | nil => intro s; rfl
  | cons p rest ih =>
    intro s
    obtain ⟨table, fk⟩ := p
    by_cases hd : b.levelDeleteOk <;>
      simp [replaceLevelsEmptyGo, deleteLevelsStep, hd] <;> apply ih

lemma replaceLevelsGo_parents (b : MsBackend) (skillId : Nat) (description : String)
    (levels : List MsLevelInput) (pairs : List (String × String)) :
    ∀ (errs : List String) (s : MsState),
      (replaceLevelsGo b skillId description levels pairs errs s).2.parents = s.parents := by
  induction pairs with
  | nil => intro errs s; rfl
  | cons p rest ih =>
    intro errs s
    obtain ⟨table, fk⟩ := p
    by_cases hd : b.levelDeleteOk <;> by_cases hi : b.levelInsertOk <;>
      simp [replaceLevelsGo, deleteLevelsStep, insertLevelsStep, hd, hi] <;> apply ih

lemma replaceLevels_parents (b : MsBackend) (skillId : Nat) (description : String)
    (levels : List MsLevelInput) (s : MsState) :
    (replaceLevels b skillId description levels s).2.parents = s.parents := by
  unfold replaceLevels
  by_cases hl : levels.isEmpty <;> simp [hl]
  · apply replaceLevelsEmptyGo_parents
  · apply replaceLevelsGo_parents

lemma cleanupUploaded_parents (b : MsBackend) (uploaded : Option String) (s : MsState) :
    (cleanupUploaded b uploaded s).parents = s.parents := by
  cases uploaded with
  | none => rfl
  | some p => by_cases hi : b.imageDeleteOk <;> simp [cleanupUploaded, hi]

/-- C3: when the parent insert of `createMainSkillWithLevels` succeeds and
the child-level step (`replaceLevels`) then fails, a rollback delete of the
created parent row is issued: if it succeeds the parent row no longer
exists afterwards, if it fails the row is still there, and the thrown error
text appends the matching rollback message, the two messages being
distinct. -/
theorem createMainSkillWithLevels_rollback_spec (b : MsBackend)
    (input : CreateMainSkillInput) (s0 : MsState) (r : String × Option String) (e : String)
    (himg : (resolveImageUrl b input s0).1 = .ok r)
    (hins : b.parentInsertHttpOk = true) (hidv : b.parentInsertIdValid = true)
    (hlvl : (replaceLevels b input.skillId input.description input.levels s0).1 = .error e) :
    (createMainSkillWithLevels true b input s0).1 =
        .error (e ++ "。" ++ (if b.rollbackDeleteOk then "已回滚主技能数据。"
          else "主技能已创建但等级写入失败，且回滚失败，请手动检查。"))
  ∧ (b.rollbackDeleteOk = true →
        input.skillId ∉ ((createMainSkillWithLevels true b input s0).2).parents)
  ∧ (b.rollbackDeleteOk = false →
        input.skillId ∈ ((createMainSkillWithLevels true b input s0).2).parents)
  ∧ (e ++ "。" ++ "已回滚主技能数据。") ≠
      (e ++ "。" ++ "主技能已创建但等级写入失败，且回滚失败，请手动检查。") := by
  rcases hri : resolveImageUrl b input s0 with ⟨ri, s1⟩
  have hriv : ri = .ok r := by
    have := himg
    rw [hri] at this
    exact this
  subst hriv
  obtain ⟨imageUrl, uploaded⟩ := r
  have hinsCall : insertMainSkill b input.skillId s1 =
      (.ok (input.skillId, "mainskills"),
        { s1 with parents := s1.parents ++ [input.skillId] }) := by
    simp [insertMainSkill, insertMainSkillGo, mainSkillTableCandidates, hins, hidv]
  set s2 : MsState := { s1 with parents := s1.parents ++ [input.skillId] } with hs2
  have hl2 : (replaceLevels b input.skillId input.description input.levels s2).1 =
      .error e := by
    rw [replaceLevels_fst_const b input.skillId input.description input.levels s2 s0]
    exact hlvl
  rcases hrl : replaceLevels b input.skillId input.description input.levels s2 with ⟨rl, s3⟩
  have hrlv : rl = .error e := by
    have := hl2
    rw [hrl] at this
    exact this
  subst hrlv
  have hs3parents : s3.parents = s1.parents ++ [input.skillId] := by
    have := replaceLevels_parents b input.skillId input.description input.levels s2
    rw [hrl] at this
    exact this
  have hmain : createMainSkillWithLevels true b input s0 =
      (match deleteById b "mainskills" input.skillId s3 with
       | (rollbackOk, s4) =>
         (.error (e ++ "。" ++ (if rollbackOk then "已回滚主技能数据。"
             else "主技能已创建但等级写入失败，且回滚失败，请手动检查。")),
          cleanupUploaded b uploaded s4)) := by
    unfold createMainSkillWithLevels
    rw [hri]
    simp only [Bool.not_true, Bool.false_eq_true, if_false]
    rw [hinsCall]
    dsimp only
    rw [hrl]
  have hne : (e ++ "。" ++ "已回滚主技能数据。") ≠
      (e ++ "。" ++ "主技能已创建但等级写入失败，且回滚失败，请手动检查。") := by
    intro hcontra
    have hlen := congrArg String.length hcontra
    have h1 : ("已回滚主技能数据。" : String).length = 9 := by decide
    have h2 : ("主技能已创建但等级写入失败，且回滚失败，请手动检查。" : String).length = 26 := by
      decide
    simp only [String.length_append, h1, h2] at hlen
    omega
  by_cases hrb : b.rollbackDeleteOk
  · refine ⟨?_, ?_, ?_, hne⟩
    · rw [hmain]
      simp [deleteById, hrb]
    · intro _
      rw [hmain]
      simp [deleteById, hrb, cleanupUploaded_parents, List.mem_filter]
    · intro hcontra
      rw [hrb] at hcontra
      exact absurd hcontra (by simp)
  · have hrbf : b.rollbackDeleteOk = false := by simpa using hrb
    refine ⟨?_, ?_, ?_, hne⟩
    · rw [hmain]
      simp [deleteById, hrbf]
    · intro hcontra
      rw [hrbf] at hcontra
      exact absurd hcontra (by simp)
    · intro _
      rw [hmain]
      simp [deleteById, hrbf, cleanupUploaded_parents, hs3parents]

/-- Concrete backend for the C3 witness: everything succeeds except the
child-level insert; the rollback delete succeeds. -/
def rollbackBackend : MsBackend :=
  ⟨true, "upmsg", "path", true, true, "imsg", true, "dmsg", false, "boom", true, true⟩

/-- Concrete create input for the C3 witness. -/
def rollbackInput : CreateMainSkillInput :=
  ⟨9, "Charge", "能量填充", "desc", some "http://img", false, [⟨1, .num 100, .undefined⟩]⟩

/-- Witness for C3: the concrete failing child insert rolls the parent back
(id 9 is absent afterwards) and surfaces the rolled-back error text. -/
theorem createMainSkillWithLevels_rollback_spec_witness :
    (createMainSkillWithLevels true rollbackBackend rollbackInput ⟨[], [], []⟩).1 =
        .error ("创建主技能等级失败：mainskill_levels.mainskill_id insert: boom" ++ "。" ++
          (if rollbackBackend.rollbackDeleteOk then "已回滚主技能数据。"
            else "主技能已创建但等级写入失败，且回滚失败，请手动检查。"))
  ∧ (9 : Nat) ∉ ((createMainSkillWithLevels true rollbackBackend rollbackInput
        ⟨[], [], []⟩).2).parents :=
  ⟨(createMainSkillWithLevels_rollback_spec rollbackBackend rollbackInput ⟨[], [], []⟩
      ("http://img", none) "创建主技能等级失败：mainskill_levels.mainskill_id insert: boom"
      rfl rfl rfl rfl).1,
   (createMainSkillWithLevels_rollback_spec rollbackBackend rollbackInput ⟨[], [], []⟩
      ("http://img", none) "创建主技能等级失败：mainskill_levels.mainskill_id insert: boom"
      rfl rfl rfl rfl).2.1 rfl⟩

end MsAdmin
